import Mathlib

/-!
Verification of the signal-generation and backtesting core of the repository.

The Python source is shallowly embedded: `float` is modelled by `ℚ`, python
ints by `ℤ`/`ℕ`, and lists by `List`.  Division in `ℚ` is total with
`x / 0 = 0` and `mean [] = 0`; the source never divides by zero on the
windows the theorems quantify over (guards in the source are reproduced
verbatim), the convention only fills the holes Python would answer with an
exception on structurally degenerate candles, which both the spec (§7) and
the claims treat as a caller precondition.  The single data-insufficiency
exception point of the source, `candles[-1]` on an empty window in
`TradingEngine.analyze`, is modelled with `Option` (`none` = raise).
Interpolated f-string fragments of reason/warning messages are abbreviated
to their constant prefixes; no claim depends on the interpolated digits.
-/

/-- OHLCV candle (`Candle` dataclass, identical in trading_engine.py,
scalping_engine.py and advanced_engine_v3.py).  The field `open` is a Lean
keyword and is rendered `opn`. -/
structure Candle where
  timestamp : Int
  opn : ℚ
  high : ℚ
  low : ℚ
  close : ℚ
  volume : ℚ
deriving DecidableEq

def defaultCandle : Candle := ⟨0, 0, 0, 0, 0, 0⟩

/-- `SignalType` enum (CALL = buy, PUT = sell, WAIT), identical in all
engine modules. -/
inductive SignalType
  | CALL
  | PUT
  | WAIT
deriving DecidableEq

/-- `TrendType` enum of trading_engine.py. -/
inductive TrendType
  | BULLISH
  | BEARISH
  | SIDEWAYS
deriving DecidableEq

/-- `MarketCondition` enum of advanced_engine_v3.py. -/
inductive MarketCondition
  | CRASH
  | PANIC
  | NORMAL
  | RECOVERY
deriving DecidableEq

/-- `np.mean` on a list of rationals; `mean [] = 0` by the `0/0 = 0`
convention (numpy would return NaN, a case no guarded call site reaches). -/
def mean (l : List ℚ) : ℚ := l.sum / (l.length : ℚ)

/-- Python slice `l[-n:]` for `n ≥ 1` (the only way the source uses it). -/
def lastN (n : ℕ) (l : List α) : List α := l.drop (l.length - n)

/-- `np.diff`: successive differences. -/
def deltas (l : List ℚ) : List ℚ := (l.zip l.tail).map fun p => p.2 - p.1

namespace TechnicalIndicators

/-- `TechnicalIndicators.calculate_ema` (trading_engine.py:74); the same
function appears verbatim as `ScalpingIndicators.calculate_ema`
(scalping_engine.py:51) and `AdvancedIndicators.calculate_ema`
(advanced_engine_v3.py:133). -/
def calculate_ema (prices : List ℚ) (period : ℕ) : ℚ :=
  if prices.length < period then mean prices
  else
    (prices.drop period).foldl
      (fun ema price => (price - ema) * (2 / ((period : ℚ) + 1)) + ema)
      (mean (prices.take period))

/-- `TechnicalIndicators.calculate_rsi` (trading_engine.py:92); verbatim
copies in scalping_engine.py:65 and advanced_engine_v3.py:147. -/
def calculate_rsi (prices : List ℚ) (period : ℕ) : ℚ :=
  if prices.length < period + 1 then 50
  else
    let ds := deltas prices
    let gains := ds.map fun d => if 0 < d then d else 0
    let losses := ds.map fun d => if d < 0 then -d else 0
    let avgGain := mean (lastN period gains)
    let avgLoss := mean (lastN period losses)
    if avgLoss = 0 then 100
    else
      let rs := avgGain / avgLoss
      100 - 100 / (1 + rs)

/-- `TechnicalIndicators.calculate_atr` (trading_engine.py:118); verbatim
copy in advanced_engine_v3.py:167, and `calculate_atr_fast`
(scalping_engine.py:118) is the same body called with period 7. -/
def calculate_atr (candles : List Candle) (period : ℕ) : ℚ :=
  if candles.length < period then 0
  else
    let trs := (candles.zip candles.tail).map fun p =>
      max (p.2.high - p.2.low) (max |p.2.high - p.1.close| |p.2.low - p.1.close|)
    mean (lastN period trs)

end TechnicalIndicators

namespace TradingEngine

/-- `TradingSignal` dataclass (trading_engine.py:41). -/
structure TradingSignal where
  signal : SignalType
  score : ℤ
  confidence : ℚ
  entry_price : ℚ
  stop_loss : ℚ
  take_profit_1 : ℚ
  take_profit_2 : ℚ
  trend : TrendType
  rsi_value : ℚ
  ema_20 : ℚ
  ema_50 : ℚ
  atr_value : ℚ
  risk_reward_1 : ℚ
  risk_reward_2 : ℚ
  risk_amount : ℚ
  reasons : List String
  warnings : List String
deriving DecidableEq

/-- `TechnicalIndicators.detect_candle_pattern` (trading_engine.py:161). -/
def detect_candle_pattern (candles : List Candle) : String × ℤ :=
  if candles.length < 3 then ("INSUFFICIENT_DATA", 0)
  else
    let current := candles.getLastD defaultCandle
    let prev := candles.dropLast.getLastD defaultCandle
    let bodyCur := |current.close - current.opn|
    if current.opn < current.close ∧ bodyCur < (current.high - current.low) * (3/10) ∧
        bodyCur * 2 < current.close - current.low then ("HAMMER_BULLISH", 15)
    else if current.close < current.opn ∧ bodyCur < (current.high - current.low) * (3/10) ∧
        bodyCur * 2 < current.high - current.close then ("SHOOTING_STAR_BEARISH", 15)
    else if current.opn < current.close ∧ prev.close < prev.opn ∧
        prev.opn < current.close ∧ current.opn < prev.close then ("ENGULFING_BULLISH", 15)
    else if current.close < current.opn ∧ prev.opn < prev.close ∧
        current.close < prev.opn ∧ prev.close < current.opn then ("ENGULFING_BEARISH", 15)
    else if bodyCur < (current.high - current.low) * (1/10) then ("DOJI_INDECISION", 5)
    else ("NO_PATTERN", 8)

/-- `TradingEngine._analyze_trend` (trading_engine.py:380).  The
`current_price` argument is unused, as in the source. -/
def analyzeTrend (ema20 ema50 _currentPrice : ℚ) : TrendType × ℤ :=
  let spread := |ema20 - ema50| / ema50 * 100
  if ema50 < ema20 then
    if (1/2) ≤ spread then (TrendType.BULLISH, 25)
    else if (1/5) ≤ spread then (TrendType.BULLISH, 20)
    else (TrendType.BULLISH, 15)
  else if ema20 < ema50 then
    if (1/2) ≤ spread then (TrendType.BEARISH, 25)
    else if (1/5) ≤ spread then (TrendType.BEARISH, 20)
    else (TrendType.BEARISH, 15)
  else (TrendType.SIDEWAYS, 5)

/-- `TradingEngine._analyze_pullback` (trading_engine.py:409). -/
def analyzePullback (currentPrice ema20 _ema50 : ℚ) (trend : TrendType) : ℤ × Bool :=
  let dist := |currentPrice - ema20| / ema20 * 100
  match trend with
  | TrendType.BULLISH =>
      if dist ≤ 3/10 then (25, true)
      else if dist ≤ 1/2 then (20, true)
      else if dist ≤ 1 then (15, true)
      else (0, false)
  | TrendType.BEARISH =>
      if dist ≤ 3/10 then (25, true)
      else if dist ≤ 1/2 then (20, true)
      else if dist ≤ 1 then (15, true)
      else (0, false)
  | TrendType.SIDEWAYS => (0, false)

/-- `TradingEngine._analyze_rsi` (trading_engine.py:442). -/
def analyzeRsi (rsi : ℚ) (trend : TrendType) : ℤ :=
  match trend with
  | TrendType.BULLISH =>
      if 40 ≤ rsi ∧ rsi ≤ 60 then 20
      else if 30 ≤ rsi ∧ rsi < 40 then 18
      else if 60 < rsi ∧ rsi ≤ 70 then 10
      else 0
  | TrendType.BEARISH =>
      if 40 ≤ rsi ∧ rsi ≤ 60 then 20
      else if 60 < rsi ∧ rsi ≤ 70 then 18
      else if 30 ≤ rsi ∧ rsi < 40 then 10
      else 0
  | TrendType.SIDEWAYS =>
      if 40 ≤ rsi ∧ rsi ≤ 60 then 15 else 5

/-- `TradingEngine._analyze_volume` (trading_engine.py:476). -/
def analyzeVolume (candles : List Candle) : ℤ :=
  if candles.length < 20 then 8
  else
    let avgVolume := mean ((lastN 20 candles).map Candle.volume)
    let currentVolume := (candles.getLastD defaultCandle).volume
    let vratio := if 0 < avgVolume then currentVolume / avgVolume else 1
    if 3/2 ≤ vratio then 15
    else if 6/5 ≤ vratio then 12
    else if 1 ≤ vratio then 10
    else 5

/-- `TradingEngine._calculate_levels` (trading_engine.py:500). -/
def calculateLevels (entry atr : ℚ) (signal : SignalType) : ℚ × ℚ × ℚ :=
  let slDist := atr * (3/2)
  let tp1Dist := slDist * 2
  let tp2Dist := slDist * 3
  match signal with
  | SignalType.CALL => (entry - slDist, entry + tp1Dist, entry + tp2Dist)
  | SignalType.PUT => (entry + slDist, entry - tp1Dist, entry - tp2Dist)
  | SignalType.WAIT => (entry - slDist, entry + tp1Dist, entry + tp2Dist)

def teCloses (cs : List Candle) : List ℚ := cs.map Candle.close

def teCurrentPrice (cs : List Candle) : ℚ := (teCloses cs).getLastD 0

def teEma20 (cs : List Candle) : ℚ := TechnicalIndicators.calculate_ema (teCloses cs) 20

def teEma50 (cs : List Candle) : ℚ := TechnicalIndicators.calculate_ema (teCloses cs) 50

def teRsi (cs : List Candle) : ℚ := TechnicalIndicators.calculate_rsi (teCloses cs) 14

def teAtr (cs : List Candle) : ℚ := TechnicalIndicators.calculate_atr cs 14

def tePattern (cs : List Candle) : String × ℤ := detect_candle_pattern cs

def teTrendPair (cs : List Candle) : TrendType × ℤ :=
  analyzeTrend (teEma20 cs) (teEma50 cs) (teCurrentPrice cs)

def tePullback (cs : List Candle) : ℤ × Bool :=
  analyzePullback (teCurrentPrice cs) (teEma20 cs) (teEma50 cs) (teTrendPair cs).1

def teRsiScore (cs : List Candle) : ℤ := analyzeRsi (teRsi cs) (teTrendPair cs).1

def teVolumeScore (cs : List Candle) : ℤ := analyzeVolume cs

/-- Running total of the five scoring blocks of `TradingEngine.analyze`
(trading_engine.py:262-311).  The MACD triple computed at line 257 is
discarded by the source (it feeds no score and no field) and is not
re-modelled. -/
def teScore (cs : List Candle) : ℤ :=
  (teTrendPair cs).2 + (tePullback cs).1 + teRsiScore cs + teVolumeScore cs + (tePattern cs).2

/-- Decision before the risk/reward gate (trading_engine.py:313-322). -/
def teSigType0 (minScore : ℤ) (cs : List Candle) : SignalType :=
  if minScore ≤ teScore cs then
    if (teTrendPair cs).1 = TrendType.BULLISH ∧ (tePullback cs).2 = true then SignalType.CALL
    else if (teTrendPair cs).1 = TrendType.BEARISH ∧ (tePullback cs).2 = true then SignalType.PUT
    else SignalType.WAIT
  else SignalType.WAIT

def teLevels (minScore : ℤ) (cs : List Candle) : ℚ × ℚ × ℚ :=
  calculateLevels (teCurrentPrice cs) (teAtr cs) (teSigType0 minScore cs)

/-- `(risk, reward_1, reward_2)` of trading_engine.py:330-341. -/
def teRiskRewards (minScore : ℤ) (cs : List Candle) : ℚ × ℚ × ℚ :=
  match teSigType0 minScore cs with
  | SignalType.CALL =>
      (teCurrentPrice cs - (teLevels minScore cs).1,
        (teLevels minScore cs).2.1 - teCurrentPrice cs,
        (teLevels minScore cs).2.2 - teCurrentPrice cs)
  | SignalType.PUT =>
      ((teLevels minScore cs).1 - teCurrentPrice cs,
        teCurrentPrice cs - (teLevels minScore cs).2.1,
        teCurrentPrice cs - (teLevels minScore cs).2.2)
  | SignalType.WAIT =>
      (teAtr cs * (3/2), teAtr cs * (3/2) * 2, teAtr cs * (3/2) * 3)

def teRR1 (minScore : ℤ) (cs : List Candle) : ℚ :=
  if 0 < (teRiskRewards minScore cs).1 then
    (teRiskRewards minScore cs).2.1 / (teRiskRewards minScore cs).1
  else 0

def teRR2 (minScore : ℤ) (cs : List Candle) : ℚ :=
  if 0 < (teRiskRewards minScore cs).1 then
    (teRiskRewards minScore cs).2.2 / (teRiskRewards minScore cs).1
  else 0

/-- Decision after the risk/reward demotion (trading_engine.py:347-349). -/
def teFinalSig (minScore : ℤ) (rrMin : ℚ) (cs : List Candle) : SignalType :=
  if teSigType0 minScore cs ≠ SignalType.WAIT ∧ teRR1 minScore cs < rrMin then SignalType.WAIT
  else teSigType0 minScore cs

/-- `reasons` list of `TradingEngine.analyze`, in source order; the
interpolated numeric fragments of the f-strings are abbreviated away. -/
def teReasons (cs : List Candle) : List String :=
  (if (teTrendPair cs).1 = TrendType.BULLISH then ["Tendencia de ALTA confirmada"]
   else if (teTrendPair cs).1 = TrendType.BEARISH then ["Tendencia de BAIXA confirmada"]
   else []) ++
  (if (tePullback cs).2 = true then ["Recuo saudavel detectado"] else []) ++
  (if 40 ≤ teRsi cs ∧ teRsi cs ≤ 60 then ["RSI equilibrado"]
   else if (teTrendPair cs).1 = TrendType.BULLISH ∧ 30 ≤ teRsi cs ∧ teRsi cs < 40 then
     ["RSI em zona de compra"]
   else if (teTrendPair cs).1 = TrendType.BEARISH ∧ 60 < teRsi cs ∧ teRsi cs ≤ 70 then
     ["RSI em zona de venda"]
   else []) ++
  (if 12 ≤ teVolumeScore cs then ["Volume forte confirmando movimento"] else []) ++
  (if 12 ≤ (tePattern cs).2 then ["Padrao de candle detectado"] else [])

/-- `warnings` list of `TradingEngine.analyze`, in source order. -/
def teWarnings (minScore : ℤ) (rrMin : ℚ) (cs : List Candle) : List String :=
  (if (teTrendPair cs).1 = TrendType.SIDEWAYS then ["Mercado LATERAL"] else []) ++
  (if ¬(40 ≤ teRsi cs ∧ teRsi cs ≤ 60) ∧
      ¬((teTrendPair cs).1 = TrendType.BULLISH ∧ 30 ≤ teRsi cs ∧ teRsi cs < 40) ∧
      ¬((teTrendPair cs).1 = TrendType.BEARISH ∧ 60 < teRsi cs ∧ teRsi cs ≤ 70) then
     ["RSI em extremo"] else []) ++
  (if teScore cs < minScore then ["Score insuficiente"] else []) ++
  (if teSigType0 minScore cs ≠ SignalType.WAIT ∧ teRR1 minScore cs < rrMin then
     ["Risk Reward baixo"] else [])

/-- The `TradingSignal` record built at trading_engine.py:358-376. -/
def mkSignal (minScore : ℤ) (rrMin capital : ℚ) (cs : List Candle) : TradingSignal :=
  { signal := teFinalSig minScore rrMin cs
    score := teScore cs
    confidence := min ((teScore cs : ℚ) / 100) 1
    entry_price := teCurrentPrice cs
    stop_loss := (teLevels minScore cs).1
    take_profit_1 := (teLevels minScore cs).2.1
    take_profit_2 := (teLevels minScore cs).2.2
    trend := (teTrendPair cs).1
    rsi_value := teRsi cs
    ema_20 := teEma20 cs
    ema_50 := teEma50 cs
    atr_value := teAtr cs
    risk_reward_1 := teRR1 minScore cs
    risk_reward_2 := teRR2 minScore cs
    risk_amount := capital * (1/100)
    reasons := teReasons cs
    warnings := teWarnings minScore rrMin cs }

/-- `TradingEngine.analyze` (trading_engine.py:234).  A window shorter than
50 candles only triggers `logger.warning` and analysis proceeds; the only
exception point is `candles[-1]` on the empty window, modelled as `none`.
Engine construction parameters: `minScore` (= `min_score`, default 70) and
`rrMin` (= `risk_reward_min`, default 2.0). -/
def analyze (minScore : ℤ) (rrMin capital : ℚ) (cs : List Candle) :
    Option TradingSignal :=
  match cs with
  | [] => none
  | _ :: _ => some (mkSignal minScore rrMin capital cs)

end TradingEngine

namespace ScalpingEngine

/-- `ScalpSignal` dataclass (scalping_engine.py:27). -/
structure ScalpSignal where
  signal : SignalType
  score : ℤ
  confidence : ℚ
  entry_price : ℚ
  stop_loss : ℚ
  take_profit_1 : ℚ
  take_profit_2 : ℚ
  ema_9 : ℚ
  ema_21 : ℚ
  rsi_value : ℚ
  momentum : ℚ
  volatility : String
  reasons : List String
  warnings : List String
deriving DecidableEq

/-- `ScalpingIndicators.calculate_momentum` (scalping_engine.py:85). -/
def calculate_momentum (prices : List ℚ) (period : ℕ) : ℚ :=
  if prices.length < period + 1 then 0
  else
    let pThen := (lastN (period + 1) prices).headD 0
    (prices.getLastD 0 - pThen) / pThen * 100

/-- The four result strings of `detect_micro_trend`, modelled as a closed
enumeration. -/
inductive MicroTrend
  | UP
  | DOWN
  | RANGING
  | UNCLEAR
deriving DecidableEq

/-- `ScalpingIndicators.detect_micro_trend` (scalping_engine.py:93). -/
def detect_micro_trend (prices : List ℚ) (ema9 ema21 : ℚ) : MicroTrend :=
  if prices.length < 10 then MicroTrend.UNCLEAR
  else
    let recent5 := lastN 5 prices
    let above9 := recent5.countP fun p => decide (ema9 < p)
    let below9 := recent5.countP fun p => decide (p < ema9)
    if 4 ≤ above9 ∧ ema21 < ema9 then MicroTrend.UP
    else if 4 ≤ below9 ∧ ema9 < ema21 then MicroTrend.DOWN
    else MicroTrend.RANGING

/-- `ScalpingIndicators.detect_volatility_spike` (scalping_engine.py:135);
the `recent_ranges` local of the source is unused and dropped. -/
def detect_volatility_spike (candles : List Candle) : Bool :=
  if candles.length < 20 then false
  else
    let avgRange := mean (((lastN 20 candles).take 10).map fun c => c.high - c.low)
    let current := candles.getLastD defaultCandle
    decide (avgRange * 2 < current.high - current.low)

/-- `ScalpingIndicators.check_volume_surge` (scalping_engine.py:149). -/
def check_volume_surge (candles : List Candle) : ℚ :=
  if candles.length < 20 then 1
  else
    let avgVolume := mean ((lastN 20 candles).dropLast.map Candle.volume)
    if avgVolume = 0 then 1
    else (candles.getLastD defaultCandle).volume / avgVolume

/-- `ScalpingEngine._analyze_scalp_long` (scalping_engine.py:268). -/
def analyze_scalp_long (price ema9 ema21 rsi momentum vratio : ℚ) :
    SignalType × ℤ × List String :=
  let (s1, r1) : ℤ × List String :=
    if ema9 < price then
      let dist := (price - ema9) / ema9 * 100
      if 1/20 ≤ dist ∧ dist ≤ 3/10 then (35, ["Preco ideal acima EMA9"])
      else if 0 ≤ dist ∧ dist < 1/20 then (30, ["Preco tocando EMA9"])
      else if 3/10 < dist ∧ dist ≤ 1/2 then (25, ["Preco um pouco distante da EMA9"])
      else (0, [])
    else (0, ["Preco abaixo EMA9"])
  let (s2, r2) : ℤ × List String :=
    if ema21 < ema9 then
      let spread := (ema9 - ema21) / ema21 * 100
      if 1/10 ≤ spread then (25, ["EMAs alinhadas para alta"])
      else (15, ["EMAs muito proximas"])
    else (0, [])
  let (s3, r3) : ℤ × List String :=
    if 50 ≤ rsi ∧ rsi ≤ 65 then (20, ["RSI ideal"])
    else if 45 ≤ rsi ∧ rsi < 50 then (15, ["RSI bom"])
    else if 65 < rsi ∧ rsi ≤ 75 then (10, ["RSI elevado"])
    else (0, [])
  let (s4, r4) : ℤ × List String :=
    if 1/5 < momentum then (15, ["Momentum forte"])
    else if 0 < momentum then (10, ["Momentum positivo"])
    else (0, [])
  let (s5, r5) : ℤ × List String :=
    if 13/10 ≤ vratio then (5, ["Volume forte"]) else (0, [])
  let score := s1 + s2 + s3 + s4 + s5
  let reasons := r1 ++ r2 ++ r3 ++ r4 ++ r5
  if 70 ≤ score then (SignalType.CALL, score, reasons)
  else (SignalType.WAIT, score, reasons)

/-- `ScalpingEngine._analyze_scalp_short` (scalping_engine.py:330). -/
def analyze_scalp_short (price ema9 ema21 rsi momentum vratio : ℚ) :
    SignalType × ℤ × List String :=
  let (s1, r1) : ℤ × List String :=
    if price < ema9 then
      let dist := (ema9 - price) / ema9 * 100
      if 1/20 ≤ dist ∧ dist ≤ 3/10 then (35, ["Preco ideal abaixo EMA9"])
      else if 0 ≤ dist ∧ dist < 1/20 then (30, ["Preco tocando EMA9"])
      else if 3/10 < dist ∧ dist ≤ 1/2 then (25, ["Preco um pouco distante da EMA9"])
      else (0, [])
    else (0, ["Preco acima EMA9"])
  let (s2, r2) : ℤ × List String :=
    if ema9 < ema21 then
      let spread := (ema21 - ema9) / ema21 * 100
      if 1/10 ≤ spread then (25, ["EMAs alinhadas para baixa"])
      else (15, ["EMAs muito proximas"])
    else (0, [])
  let (s3, r3) : ℤ × List String :=
    if 35 ≤ rsi ∧ rsi ≤ 50 then (20, ["RSI ideal"])
    else if 50 < rsi ∧ rsi ≤ 55 then (15, ["RSI bom"])
    else if 25 ≤ rsi ∧ rsi < 35 then (10, ["RSI baixo"])
    else (0, [])
  let (s4, r4) : ℤ × List String :=
    if momentum < -(1/5) then (15, ["Momentum forte"])
    else if momentum < 0 then (10, ["Momentum negativo"])
    else (0, [])
  let (s5, r5) : ℤ × List String :=
    if 13/10 ≤ vratio then (5, ["Volume forte"]) else (0, [])
  let score := s1 + s2 + s3 + s4 + s5
  let reasons := r1 ++ r2 ++ r3 ++ r4 ++ r5
  if 70 ≤ score then (SignalType.PUT, score, reasons)
  else (SignalType.WAIT, score, reasons)

/-- `ScalpingEngine._calculate_scalp_levels` (scalping_engine.py:392). -/
def calculate_scalp_levels (entry atr : ℚ) (signal : SignalType) : ℚ × ℚ × ℚ :=
  let slDist := atr * (6/5)
  let tp1Dist := slDist * (3/2)
  let tp2Dist := slDist * 2
  match signal with
  | SignalType.CALL => (entry - slDist, entry + tp1Dist, entry + tp2Dist)
  | SignalType.PUT => (entry + slDist, entry - tp1Dist, entry - tp2Dist)
  | SignalType.WAIT => (entry - slDist, entry + tp1Dist, entry + tp2Dist)

/-- `ScalpingEngine._wait_signal` (scalping_engine.py:419). -/
def waitSignal (reason : String) : ScalpSignal :=
  { signal := SignalType.WAIT
    score := 0
    confidence := 0
    entry_price := 0
    stop_loss := 0
    take_profit_1 := 0
    take_profit_2 := 0
    ema_9 := 0
    ema_21 := 0
    rsi_value := 50
    momentum := 0
    volatility := "UNKNOWN"
    reasons := []
    warnings := ["⚠️ " ++ reason] }

def seCloses (cs : List Candle) : List ℚ := cs.map Candle.close

def sePrice (cs : List Candle) : ℚ := (seCloses cs).getLastD 0

def seEma9 (cs : List Candle) : ℚ := TechnicalIndicators.calculate_ema (seCloses cs) 9

def seEma21 (cs : List Candle) : ℚ := TechnicalIndicators.calculate_ema (seCloses cs) 21

def seRsi (cs : List Candle) : ℚ := TechnicalIndicators.calculate_rsi (seCloses cs) 14

def seMomentum (cs : List Candle) : ℚ := calculate_momentum (seCloses cs) 10

def seAtr (cs : List Candle) : ℚ := TechnicalIndicators.calculate_atr cs 7

def seMicro (cs : List Candle) : MicroTrend :=
  detect_micro_trend (seCloses cs) (seEma9 cs) (seEma21 cs)

def seVolumeSurge (cs : List Candle) : ℚ := check_volume_surge cs

/-- Setup dispatch of scalping_engine.py:213-223 (micro trend UP evaluates
the long setup, DOWN the short one, anything else keeps the initial
`(WAIT, 0, [])`). -/
def seSetup (cs : List Candle) : SignalType × ℤ × List String :=
  if seMicro cs = MicroTrend.UP then
    analyze_scalp_long (sePrice cs) (seEma9 cs) (seEma21 cs) (seRsi cs)
      (seMomentum cs) (seVolumeSurge cs)
  else if seMicro cs = MicroTrend.DOWN then
    analyze_scalp_short (sePrice cs) (seEma9 cs) (seEma21 cs) (seRsi cs)
      (seMomentum cs) (seVolumeSurge cs)
  else (SignalType.WAIT, 0, [])

def seLevels (cs : List Candle) : ℚ × ℚ × ℚ :=
  calculate_scalp_levels (sePrice cs) (seAtr cs) (seSetup cs).1

/-- `(risk, reward)` of scalping_engine.py:231-239. -/
def seRiskReward (cs : List Candle) : ℚ × ℚ :=
  match (seSetup cs).1 with
  | SignalType.CALL => (sePrice cs - (seLevels cs).1, (seLevels cs).2.1 - sePrice cs)
  | SignalType.PUT => ((seLevels cs).1 - sePrice cs, sePrice cs - (seLevels cs).2.1)
  | SignalType.WAIT => (seAtr cs, seAtr cs * (3/2))

/-- `rr` of scalping_engine.py:241. -/
def seRR (cs : List Candle) : ℚ :=
  if 0 < (seRiskReward cs).1 then (seRiskReward cs).2 / (seRiskReward cs).1 else 0

/-- `ScalpingEngine.analyze` (scalping_engine.py:174). -/
def analyze (cs : List Candle) : ScalpSignal :=
  if cs.length < 50 then waitSignal "Dados insuficientes"
  else if detect_volatility_spike cs = true then waitSignal "Volatilidade extrema detectada"
  else if seVolumeSurge cs < 4/5 then waitSignal "Volume muito baixo"
  else if seMicro cs = MicroTrend.RANGING then waitSignal "Mercado sem direcao clara"
  else
    if (seSetup cs).1 ≠ SignalType.WAIT ∧ seRR cs < 6/5 then
      waitSignal "Risk Reward insuficiente"
    else
      { signal := (seSetup cs).1
        score := (seSetup cs).2.1
        confidence := min (((seSetup cs).2.1 : ℚ) / 100) 1
        entry_price := sePrice cs
        stop_loss := (seLevels cs).1
        take_profit_1 := (seLevels cs).2.1
        take_profit_2 := (seLevels cs).2.2
        ema_9 := seEma9 cs
        ema_21 := seEma21 cs
        rsi_value := seRsi cs
        momentum := seMomentum cs
        volatility := if detect_volatility_spike cs = true then "HIGH" else "NORMAL"
        reasons := (seSetup cs).2.2
        warnings := [] }

end ScalpingEngine

namespace AdvancedEngine

/-- `AdvancedSignal` dataclass (advanced_engine_v3.py:32).  The source field
`volatility` stores `np.std(returns) * 100`; we store its square scaled by
`10⁴` (`volatilitySq`), since a square root is irrational — every source
comparison `volatility > t` is rendered `volatilitySq > t²`, an equivalent
test for the nonnegative standard deviation. -/
structure AdvancedSignal where
  signal : SignalType
  score : ℤ
  confidence : ℚ
  entry_price : ℚ
  stop_loss : ℚ
  take_profit_1 : ℚ
  take_profit_2 : ℚ
  market_condition : MarketCondition
  volatilitySq : ℚ
  trend_strength : ℚ
  ema_fast : ℚ
  ema_mid : ℚ
  ema_slow : ℚ
  rsi : ℚ
  reasons : List String
  warnings : List String
deriving DecidableEq

/-- `closes[-1]` percentage change against `closes[-24]`
(advanced_engine_v3.py:72). -/
def change24 (cs : List Candle) : ℚ :=
  let closes := cs.map Candle.close
  let old := (lastN 24 closes).headD 0
  (closes.getLastD 0 - old) / old * 100

/-- `closes[-1]` percentage change against `closes[-6]`
(advanced_engine_v3.py:79). -/
def change6 (cs : List Candle) : ℚ :=
  let closes := cs.map Candle.close
  let old := (lastN 6 closes).headD 0
  (closes.getLastD 0 - old) / old * 100

/-- `MarketAnalyzer.detect_market_condition` (advanced_engine_v3.py:62).
The inner `len ≥ 24` / `len ≥ 6` guards of the source are reproduced even
though the leading `len < 50` early return makes them always true. -/
def detect_market_condition (cs : List Candle) : MarketCondition :=
  if cs.length < 50 then MarketCondition.NORMAL
  else if 24 ≤ cs.length ∧ change24 cs < -5 then MarketCondition.CRASH
  else if 6 ≤ cs.length ∧ change6 cs < -3 then MarketCondition.PANIC
  else if 6 ≤ cs.length ∧ change24 cs < -2 ∧ 1 < change6 cs then MarketCondition.RECOVERY
  else MarketCondition.NORMAL

/-- Square of `MarketAnalyzer.calculate_volatility`
(advanced_engine_v3.py:90) scaled by `10⁴`: the source value is
`np.std(returns) * 100` (population std); we model
`var(returns) * 10⁴ = volatility²`. -/
def volatilitySq (cs : List Candle) (period : ℕ) : ℚ :=
  if cs.length < period then 0
  else
    let closes := lastN period (cs.map Candle.close)
    let rets := (closes.zip closes.tail).map fun p => (p.2 - p.1) / p.1
    let m := mean rets
    mean (rets.map fun r => (r - m) ^ 2) * 10000

/-- `MarketAnalyzer.calculate_trend_strength` (advanced_engine_v3.py:102). -/
def calculate_trend_strength (closes : List ℚ) (emaFast emaMid emaSlow : ℚ) : ℚ :=
  if closes.length < 10 then 0
  else
    let alignment : ℚ :=
      if emaMid < emaFast ∧ emaSlow < emaMid then 40
      else if emaFast < emaMid ∧ emaMid < emaSlow then 40
      else 10
    let spread := |(emaFast - emaSlow) / emaSlow| * 100
    let spreadScore := min (spread * 10) 30
    let last10 := lastN 10 closes
    let upMoves : ℕ := (last10.zip last10.tail).countP fun p => decide (p.1 < p.2)
    let consistency := |(upMoves : ℚ) - 5| / 5 * 30
    min (alignment + spreadScore + consistency) 100

/-- `AdvancedIndicators.calculate_volume_profile` (advanced_engine_v3.py:184). -/
def calculate_volume_profile (cs : List Candle) (period : ℕ) : ℚ :=
  if cs.length < period then 1
  else
    let volumes := (lastN period cs).map Candle.volume
    let avgVolume := mean volumes.dropLast
    if avgVolume = 0 then 1
    else (cs.getLastD defaultCandle).volume / avgVolume

/-- `AdaptiveRiskManager.calculate_stop_multiplier`
(advanced_engine_v3.py:227); the `volatility > 3` / `> 2` tests are the
squared tests `volSq > 9` / `> 4`. -/
def calculate_stop_multiplier (mc : MarketCondition) (volSq : ℚ) : ℚ :=
  let base : ℚ := 2
  let m :=
    if mc = MarketCondition.CRASH then base * 2
    else if mc = MarketCondition.PANIC then base * (3/2)
    else base
  if 9 < volSq then m * (13/10)
  else if 4 < volSq then m * (23/20)
  else m

/-- `AdvancedTradingEngine._analyze_bullish_setup` (advanced_engine_v3.py:376). -/
def analyze_bullish_setup (price emaFast _emaMid _emaSlow rsi trendStrength vratio : ℚ)
    (mc : MarketCondition) : SignalType × ℤ × List String :=
  let (s1, r1) : ℤ × List String :=
    if emaFast < price then
      let dist := (price - emaFast) / emaFast * 100
      if 1/10 ≤ dist ∧ dist ≤ 4/5 then (30, ["Preco ideal acima EMA rapida"])
      else if 0 ≤ dist ∧ dist < 1/10 then (25, ["Preco tocando EMA"])
      else if 4/5 < dist ∧ dist ≤ 3/2 then (20, ["Preco distante mas aceitavel"])
      else (0, [])
    else (0, [])
  let (s2, r2) : ℤ × List String :=
    if 70 ≤ trendStrength then (25, ["Tendencia FORTE"])
    else if 50 ≤ trendStrength then (20, ["Tendencia boa"])
    else if 40 ≤ trendStrength then (15, ["Tendencia moderada"])
    else (0, [])
  let (s3, r3) : ℤ × List String :=
    if 45 ≤ rsi ∧ rsi ≤ 65 then (20, ["RSI ideal"])
    else if (40 ≤ rsi ∧ rsi < 45) ∨ (65 < rsi ∧ rsi ≤ 70) then (15, ["RSI aceitavel"])
    else (0, [])
  let (s4, r4) : ℤ × List String :=
    if 13/10 ≤ vratio then (15, ["Volume forte"])
    else if 1 ≤ vratio then (10, ["Volume normal"])
    else (0, [])
  let (s5, r5) : ℤ × List String :=
    if mc = MarketCondition.RECOVERY then (10, ["Mercado em recuperacao"])
    else if mc = MarketCondition.NORMAL then (5, ["Mercado normal"])
    else (0, [])
  let score := s1 + s2 + s3 + s4 + s5
  let reasons := r1 ++ r2 ++ r3 ++ r4 ++ r5
  if 70 ≤ score then (SignalType.CALL, score, reasons)
  else (SignalType.WAIT, score, reasons)

/-- `AdvancedTradingEngine._analyze_bearish_setup` (advanced_engine_v3.py:436). -/
def analyze_bearish_setup (price emaFast _emaMid _emaSlow rsi trendStrength vratio : ℚ)
    (mc : MarketCondition) : SignalType × ℤ × List String :=
  let (s1, r1) : ℤ × List String :=
    if price < emaFast then
      let dist := (emaFast - price) / emaFast * 100
      if 1/10 ≤ dist ∧ dist ≤ 4/5 then (30, ["Preco ideal abaixo EMA rapida"])
      else if 0 ≤ dist ∧ dist < 1/10 then (25, ["Preco tocando EMA"])
      else if 4/5 < dist ∧ dist ≤ 3/2 then (20, ["Preco distante mas aceitavel"])
      else (0, [])
    else (0, [])
  let (s2, r2) : ℤ × List String :=
    if 70 ≤ trendStrength then (25, ["Tendencia FORTE"])
    else if 50 ≤ trendStrength then (20, ["Tendencia boa"])
    else if 40 ≤ trendStrength then (15, ["Tendencia moderada"])
    else (0, [])
  let (s3, r3) : ℤ × List String :=
    if 35 ≤ rsi ∧ rsi ≤ 55 then (20, ["RSI ideal"])
    else if (30 ≤ rsi ∧ rsi < 35) ∨ (55 < rsi ∧ rsi ≤ 60) then (15, ["RSI aceitavel"])
    else (0, [])
  let (s4, r4) : ℤ × List String :=
    if 13/10 ≤ vratio then (15, ["Volume forte"])
    else if 1 ≤ vratio then (10, ["Volume normal"])
    else (0, [])
  let (s5, r5) : ℤ × List String :=
    if mc = MarketCondition.RECOVERY then (5, ["Mercado em recuperacao, PUT arriscado"])
    else if mc = MarketCondition.NORMAL then (10, ["Mercado normal"])
    else (0, [])
  let score := s1 + s2 + s3 + s4 + s5
  let reasons := r1 ++ r2 ++ r3 ++ r4 ++ r5
  if 70 ≤ score then (SignalType.PUT, score, reasons)
  else (SignalType.WAIT, score, reasons)

/-- `AdvancedTradingEngine._calculate_adaptive_levels`
(advanced_engine_v3.py:492). -/
def calculate_adaptive_levels (entry atr : ℚ) (signal : SignalType)
    (stopMultiplier : ℚ) : ℚ × ℚ × ℚ :=
  let slDist := atr * stopMultiplier
  let tp1Dist := slDist * 2
  let tp2Dist := slDist * 3
  match signal with
  | SignalType.CALL => (entry - slDist, entry + tp1Dist, entry + tp2Dist)
  | SignalType.PUT => (entry + slDist, entry - tp1Dist, entry - tp2Dist)
  | SignalType.WAIT => (entry - slDist, entry + tp1Dist, entry + tp2Dist)

/-- `AdvancedTradingEngine._wait_signal` (advanced_engine_v3.py:515). -/
def waitSignal (reason : String) : AdvancedSignal :=
  { signal := SignalType.WAIT
    score := 0
    confidence := 0
    entry_price := 0
    stop_loss := 0
    take_profit_1 := 0
    take_profit_2 := 0
    market_condition := MarketCondition.NORMAL
    volatilitySq := 0
    trend_strength := 0
    ema_fast := 0
    ema_mid := 0
    ema_slow := 0
    rsi := 50
    reasons := []
    warnings := ["⚠️ " ++ reason] }

def aeCloses (cs : List Candle) : List ℚ := cs.map Candle.close

def aePrice (cs : List Candle) : ℚ := (aeCloses cs).getLastD 0

def aeCondition (cs : List Candle) : MarketCondition := detect_market_condition cs

def aeEmaFast (cs : List Candle) : ℚ := TechnicalIndicators.calculate_ema (aeCloses cs) 12

def aeEmaMid (cs : List Candle) : ℚ := TechnicalIndicators.calculate_ema (aeCloses cs) 26

def aeEmaSlow (cs : List Candle) : ℚ := TechnicalIndicators.calculate_ema (aeCloses cs) 50

def aeRsi (cs : List Candle) : ℚ := TechnicalIndicators.calculate_rsi (aeCloses cs) 14

def aeAtr (cs : List Candle) : ℚ := TechnicalIndicators.calculate_atr cs 14

def aeVolSq (cs : List Candle) : ℚ := volatilitySq cs 20

def aeTrendStrength (cs : List Candle) : ℚ :=
  calculate_trend_strength (aeCloses cs) (aeEmaFast cs) (aeEmaMid cs) (aeEmaSlow cs)

def aeVolumeProfile (cs : List Candle) : ℚ := calculate_volume_profile cs 20

/-- Setup dispatch of advanced_engine_v3.py:309-319. -/
def aeSetup (cs : List Candle) : SignalType × ℤ × List String :=
  if aeEmaMid cs < aeEmaFast cs ∧ aeEmaSlow cs < aeEmaMid cs then
    analyze_bullish_setup (aePrice cs) (aeEmaFast cs) (aeEmaMid cs) (aeEmaSlow cs)
      (aeRsi cs) (aeTrendStrength cs) (aeVolumeProfile cs) (aeCondition cs)
  else if aeEmaFast cs < aeEmaMid cs ∧ aeEmaMid cs < aeEmaSlow cs then
    analyze_bearish_setup (aePrice cs) (aeEmaFast cs) (aeEmaMid cs) (aeEmaSlow cs)
      (aeRsi cs) (aeTrendStrength cs) (aeVolumeProfile cs) (aeCondition cs)
  else (SignalType.WAIT, 0, [])

/-- `min_score` of advanced_engine_v3.py:322. -/
def aeMinScore (cs : List Candle) : ℤ :=
  if aeCondition cs = MarketCondition.NORMAL then 70 else 80

def aeStopMultiplier (cs : List Candle) : ℚ :=
  calculate_stop_multiplier (aeCondition cs) (aeVolSq cs)

def aeLevels (cs : List Candle) : ℚ × ℚ × ℚ :=
  calculate_adaptive_levels (aePrice cs) (aeAtr cs) (aeSetup cs).1 (aeStopMultiplier cs)

/-- `(risk, reward)` of advanced_engine_v3.py:337-345. -/
def aeRiskReward (cs : List Candle) : ℚ × ℚ :=
  match (aeSetup cs).1 with
  | SignalType.CALL => (aePrice cs - (aeLevels cs).1, (aeLevels cs).2.1 - aePrice cs)
  | SignalType.PUT => ((aeLevels cs).1 - aePrice cs, aePrice cs - (aeLevels cs).2.1)
  | SignalType.WAIT => (aeAtr cs * 2, aeAtr cs * 4)

/-- `rr` of advanced_engine_v3.py:347. -/
def aeRR (cs : List Candle) : ℚ :=
  if 0 < (aeRiskReward cs).1 then (aeRiskReward cs).2 / (aeRiskReward cs).1 else 0

/-- `min_rr` of advanced_engine_v3.py:350. -/
def aeMinRR (cs : List Candle) : ℚ :=
  if aeCondition cs = MarketCondition.NORMAL then 9/5 else 11/5

/-- `AdvancedTradingEngine.analyze` (advanced_engine_v3.py:259). -/
def analyze (cs : List Candle) : AdvancedSignal :=
  if cs.length < 100 then waitSignal "Dados insuficientes"
  else if aeCondition cs = MarketCondition.CRASH ∨ aeCondition cs = MarketCondition.PANIC then
    waitSignal "Mercado em crash ou panic"
  else if 16 < aeVolSq cs then waitSignal "Volatilidade extrema"
  else if aeTrendStrength cs < 40 then waitSignal "Tendencia fraca"
  else if aeVolumeProfile cs < 7/10 then waitSignal "Volume baixo"
  else
    if (aeSetup cs).2.1 < aeMinScore cs then waitSignal "Score insuficiente"
    else if (aeSetup cs).1 ≠ SignalType.WAIT ∧ aeRR cs < aeMinRR cs then
      waitSignal "Risk Reward insuficiente"
    else
      { signal := (aeSetup cs).1
        score := (aeSetup cs).2.1
        confidence := min (((aeSetup cs).2.1 : ℚ) / 100) 1
        entry_price := aePrice cs
        stop_loss := (aeLevels cs).1
        take_profit_1 := (aeLevels cs).2.1
        take_profit_2 := (aeLevels cs).2.2
        market_condition := aeCondition cs
        volatilitySq := aeVolSq cs
        trend_strength := aeTrendStrength cs
        ema_fast := aeEmaFast cs
        ema_mid := aeEmaMid cs
        ema_slow := aeEmaSlow cs
        rsi := aeRsi cs
        reasons := (aeSetup cs).2.2
        warnings := [] }

end AdvancedEngine

/-- Outcome string of the trade simulators (`'WIN'`, `'LOSS'`, `'NEUTRAL'`). -/
inductive TOutcome
  | WIN
  | LOSS
  | NEUTRAL
deriving DecidableEq

/-- Exit-reason strings of the trade simulators; the formatted candle index
`i` of `f'stop_{i}'`, `f'tp2_{i}'`, `f'tp3_candle_{i}'` is carried as a
constructor argument.  `timeExitProfit`/`timeExitLoss` are the
`'time_exit_profit'`/`'time_exit_loss'` strings of validate_real_market.py. -/
inductive ExitReason
  | stopHit (i : ℕ)
  | tp2Hit (i : ℕ)
  | tp3Hit (i : ℕ)
  | timeExit
  | timeExitProfit
  | timeExitLoss
  | insufficientData
  | noSignal
deriving DecidableEq

namespace ValidateForexFinal

/-- `total_cost_pct` of validate_forex_final.py:76 (0.015%). -/
def totalCostPct : ℚ := 15 / 100000

/-- The CALL loop of `simulate_forex_trade` (validate_forex_final.py:84-105).
Arguments after the price levels: candles still to walk, current candle
index, `tp1_hit`, `position`, running `total_profit`; `finalClose` is
`candles_after[max_candles-1].close` used by the time exit. -/
def forexCallLoop (entry sl tp1 tp2 finalClose : ℚ) :
    List Candle → ℕ → Bool → ℚ → ℚ → TOutcome × ℚ × ExitReason
  | [], _, _, position, profit =>
      let p := profit + (finalClose - entry) / entry * position
      (if 0 < p then TOutcome.WIN else TOutcome.LOSS, p, ExitReason.timeExit)
  | c :: cs, i, tp1Hit, position, profit =>
      if c.low ≤ sl then
        (TOutcome.LOSS, profit + (sl - entry) / entry, ExitReason.stopHit i)
      else if tp1Hit = false ∧ tp2 ≤ c.high then
        (TOutcome.WIN, profit + (tp2 - entry) / entry, ExitReason.tp2Hit i)
      else if tp1Hit = false ∧ tp1 ≤ c.high then
        forexCallLoop entry sl tp1 tp2 finalClose cs (i + 1) true (3/10)
          (profit + (tp1 - entry) / entry * (7/10))
      else forexCallLoop entry sl tp1 tp2 finalClose cs (i + 1) tp1Hit position profit

/-- The PUT loop of `simulate_forex_trade` (validate_forex_final.py:108-129). -/
def forexPutLoop (entry sl tp1 tp2 finalClose : ℚ) :
    List Candle → ℕ → Bool → ℚ → ℚ → TOutcome × ℚ × ExitReason
  | [], _, _, position, profit =>
      let p := profit + (entry - finalClose) / entry * position
      (if 0 < p then TOutcome.WIN else TOutcome.LOSS, p, ExitReason.timeExit)
  | c :: cs, i, tp1Hit, position, profit =>
      if sl ≤ c.high then
        (TOutcome.LOSS, profit + (entry - sl) / entry, ExitReason.stopHit i)
      else if tp1Hit = false ∧ c.low ≤ tp2 then
        (TOutcome.WIN, profit + (entry - tp2) / entry, ExitReason.tp2Hit i)
      else if tp1Hit = false ∧ c.low ≤ tp1 then
        forexPutLoop entry sl tp1 tp2 finalClose cs (i + 1) true (3/10)
          (profit + (entry - tp1) / entry * (7/10))
      else forexPutLoop entry sl tp1 tp2 finalClose cs (i + 1) tp1Hit position profit

/-- `simulate_forex_trade` (validate_forex_final.py:67).  The signal type is
the string `signal_data.signal.value` of the caller. -/
def simulate_forex_trade (signalType : String) (entry sl tp1 tp2 : ℚ)
    (candlesAfter : List Candle) : TOutcome × ℚ × ExitReason :=
  if candlesAfter.length < 3 then (TOutcome.NEUTRAL, 0, ExitReason.insufficientData)
  else
    let maxCandles := min candlesAfter.length 10
    let cs := candlesAfter.take maxCandles
    let finalClose := (cs.getLastD defaultCandle).close
    if signalType = "CALL" then
      forexCallLoop entry sl tp1 tp2 finalClose cs 0 false 1 (-totalCostPct * entry)
    else forexPutLoop entry sl tp1 tp2 finalClose cs 0 false 1 (-totalCostPct * entry)

end ValidateForexFinal

namespace ValidateCryptoV2

/-- Mutable loop state of `simulate_trade_advanced`
(validate_crypto_v2.py:100-104 plus the `highest`/`lowest` extreme). -/
structure CState where
  trailing : ℚ
  pos : ℚ
  profit : ℚ
  tp1Hit : Bool
  tp2Hit : Bool
  extreme : ℚ
deriving DecidableEq

/-- The CALL loop of `simulate_trade_advanced`
(validate_crypto_v2.py:106-151): trailing-to-breakeven update on a new high,
stop check, full close at TP3, 50% partial at TP2 (stop to TP1), 30% partial
at TP1 (stop to entry).  Both partial-exit guards test the `tp1_hit` flag as
it was at the start of the candle, exactly as the source does. -/
def cryptoCallLoop (entry tp1 tp2 tp3 finalClose : ℚ) :
    List Candle → ℕ → CState → TOutcome × ℚ × ExitReason
  | [], _, s =>
      let p := s.profit + (finalClose - entry) * s.pos
      (if 0 < p then TOutcome.WIN else TOutcome.LOSS, p, ExitReason.timeExit)
  | c :: cs, i, s =>
      let newHigh := s.extreme < c.high
      let extreme1 := if newHigh then c.high else s.extreme
      let halfway := entry + (tp1 - entry) * (1/2)
      let trailing1 :=
        if newHigh ∧ s.tp1Hit = false ∧ halfway ≤ extreme1 then max s.trailing entry
        else s.trailing
      if c.low ≤ trailing1 then
        (TOutcome.LOSS, s.profit + (trailing1 - entry) * s.pos, ExitReason.stopHit i)
      else if s.tp1Hit = false ∧ tp3 ≤ c.high then
        (TOutcome.WIN, s.profit + (tp3 - entry) * s.pos, ExitReason.tp3Hit i)
      else
        let sA : CState := { s with trailing := trailing1, extreme := extreme1 }
        let s1 :=
          if s.tp1Hit = false ∧ tp2 ≤ c.high then
            { sA with profit := sA.profit + (tp2 - entry) * (1/2), pos := 1/2,
                      tp2Hit := true, trailing := tp1 }
          else sA
        let s2 :=
          if s.tp1Hit = false ∧ tp1 ≤ c.high then
            { s1 with profit := s1.profit + (tp1 - entry) * (3/10), pos := 7/10,
                      tp1Hit := true, trailing := entry }
          else s1
        cryptoCallLoop entry tp1 tp2 tp3 finalClose cs (i + 1) s2

/-- The PUT loop of `simulate_trade_advanced` (validate_crypto_v2.py:153-196). -/
def cryptoPutLoop (entry tp1 tp2 tp3 finalClose : ℚ) :
    List Candle → ℕ → CState → TOutcome × ℚ × ExitReason
  | [], _, s =>
      let p := s.profit + (entry - finalClose) * s.pos
      (if 0 < p then TOutcome.WIN else TOutcome.LOSS, p, ExitReason.timeExit)
  | c :: cs, i, s =>
      let newLow := c.low < s.extreme
      let extreme1 := if newLow then c.low else s.extreme
      let halfway := entry - (entry - tp1) * (1/2)
      let trailing1 :=
        if newLow ∧ s.tp1Hit = false ∧ extreme1 ≤ halfway then min s.trailing entry
        else s.trailing
      if trailing1 ≤ c.high then
        (TOutcome.LOSS, s.profit + (entry - trailing1) * s.pos, ExitReason.stopHit i)
      else if s.tp1Hit = false ∧ c.low ≤ tp3 then
        (TOutcome.WIN, s.profit + (entry - tp3) * s.pos, ExitReason.tp3Hit i)
      else
        let sA : CState := { s with trailing := trailing1, extreme := extreme1 }
        let s1 :=
          if s.tp1Hit = false ∧ c.low ≤ tp2 then
            { sA with profit := sA.profit + (entry - tp2) * (1/2), pos := 1/2,
                      tp2Hit := true, trailing := tp1 }
          else sA
        let s2 :=
          if s.tp1Hit = false ∧ c.low ≤ tp1 then
            { s1 with profit := s1.profit + (entry - tp1) * (3/10), pos := 7/10,
                      tp1Hit := true, trailing := entry }
          else s1
        cryptoPutLoop entry tp1 tp2 tp3 finalClose cs (i + 1) s2

/-- `simulate_trade_advanced` (validate_crypto_v2.py:93). -/
def simulate_trade_advanced (signal : SignalType) (entry sl tp1 tp2 tp3 : ℚ)
    (candlesAfter : List Candle) : TOutcome × ℚ × ExitReason :=
  if candlesAfter.length < 3 then (TOutcome.NEUTRAL, 0, ExitReason.insufficientData)
  else
    let maxCandles := min candlesAfter.length 30
    let cs := candlesAfter.take maxCandles
    let finalClose := (cs.getLastD defaultCandle).close
    match signal with
    | SignalType.CALL =>
        cryptoCallLoop entry tp1 tp2 tp3 finalClose cs 0 ⟨sl, 1, 0, false, false, entry⟩
    | SignalType.PUT =>
        cryptoPutLoop entry tp1 tp2 tp3 finalClose cs 0 ⟨sl, 1, 0, false, false, entry⟩
    | SignalType.WAIT => (TOutcome.NEUTRAL, 0, ExitReason.noSignal)

end ValidateCryptoV2

namespace AuditComplete

/-- `total_cost` fraction of audit_complete.py:62-66:
spread 0.1% + fee 0.1% + slippage 0.05% = 0.25% of entry. -/
def totalCostPct : ℚ := 25 / 10000

/-- The CALL loop of `simulate_realistic_trade` (audit_complete.py:74-103).
Note the source subtracts `total_cost` again on every exit leg even though
the running profit already starts at `-total_cost`, and each exit
OVERWRITES (`total_profit = ...`) rather than adds on the stop/TP2 paths.
The log strings are abbreviated to constants. -/
def auditCallLoop (entry sl tp1 tp2 totalCost finalClose : ℚ) :
    List Candle → ℕ → Bool → ℚ → ℚ → List String → TOutcome × ℚ × ExitReason × List String
  | [], _, _, position, profit, log =>
      let p := profit + ((finalClose - entry) * position - totalCost * position)
      (if 0 < p then TOutcome.WIN else TOutcome.LOSS, p, ExitReason.timeExit,
        log ++ ["Time exit"])
  | c :: cs, i, tp1Hit, position, profit, log =>
      if c.low ≤ sl then
        (TOutcome.LOSS, (sl - entry) * position - totalCost, ExitReason.stopHit i,
          log ++ ["Hit STOP LOSS"])
      else if tp1Hit = false ∧ tp2 ≤ c.high then
        (TOutcome.WIN, (tp2 - entry) * position - totalCost, ExitReason.tp2Hit i,
          log ++ ["Hit TP2"])
      else if tp1Hit = false ∧ tp1 ≤ c.high then
        auditCallLoop entry sl tp1 tp2 totalCost finalClose cs (i + 1) true (3/10)
          ((tp1 - entry) * (7/10) - totalCost * (7/10)) (log ++ ["Hit TP1, closed 70%"])
      else auditCallLoop entry sl tp1 tp2 totalCost finalClose cs (i + 1) tp1Hit position
        profit log

/-- The PUT loop of `simulate_realistic_trade` (audit_complete.py:106-131). -/
def auditPutLoop (entry sl tp1 tp2 totalCost finalClose : ℚ) :
    List Candle → ℕ → Bool → ℚ → ℚ → List String → TOutcome × ℚ × ExitReason × List String
  | [], _, _, position, profit, log =>
      let p := profit + ((entry - finalClose) * position - totalCost * position)
      (if 0 < p then TOutcome.WIN else TOutcome.LOSS, p, ExitReason.timeExit,
        log ++ ["Time exit"])
  | c :: cs, i, tp1Hit, position, profit, log =>
      if sl ≤ c.high then
        (TOutcome.LOSS, (entry - sl) * position - totalCost, ExitReason.stopHit i,
          log ++ ["Hit STOP LOSS"])
      else if tp1Hit = false ∧ c.low ≤ tp2 then
        (TOutcome.WIN, (entry - tp2) * position - totalCost, ExitReason.tp2Hit i,
          log ++ ["Hit TP2"])
      else if tp1Hit = false ∧ c.low ≤ tp1 then
        auditPutLoop entry sl tp1 tp2 totalCost finalClose cs (i + 1) true (3/10)
          ((entry - tp1) * (7/10) - totalCost * (7/10)) (log ++ ["Hit TP1, closed 70%"])
      else auditPutLoop entry sl tp1 tp2 totalCost finalClose cs (i + 1) tp1Hit position
        profit log

/-- `simulate_realistic_trade` (audit_complete.py:53).  `fiveMin` models
`timeframe == "5m"`. -/
def simulate_realistic_trade (signalType : String) (entry sl tp1 tp2 : ℚ)
    (candlesAfter : List Candle) (fiveMin : Bool) :
    TOutcome × ℚ × ExitReason × List String :=
  if candlesAfter.length < 3 then (TOutcome.NEUTRAL, 0, ExitReason.insufficientData, [])
  else
    let maxCandles := min candlesAfter.length (if fiveMin then 10 else 30)
    let cs := candlesAfter.take maxCandles
    let totalCost := totalCostPct * entry
    let finalClose := (cs.getLastD defaultCandle).close
    if signalType = "CALL" ∨ signalType = "call" then
      auditCallLoop entry sl tp1 tp2 totalCost finalClose cs 0 false 1 (-totalCost) []
    else auditPutLoop entry sl tp1 tp2 totalCost finalClose cs 0 false 1 (-totalCost) []

end AuditComplete

namespace ValidateRealMarket

/-- Mutable loop state of `simulate_trade_outcome_advanced`
(validate_real_market.py:142-145 plus the `highest_price`/`lowest_price`
extreme). -/
structure RState where
  trailing : ℚ
  remaining : ℚ
  profit : ℚ
  partialDone : Bool
  extreme : ℚ
deriving DecidableEq

/-- The CALL loop of `simulate_trade_outcome_advanced`
(validate_real_market.py:147-193): trailing-to-breakeven on a new high
(only while `use_trailing` and no partial exit yet), stop check, full close
at TP2, 50% partial at TP1 with the stop moved to the entry price. -/
def rmCallLoop (entry tp1 tp2 finalClose : ℚ) (useTrailing : Bool) :
    List Candle → ℕ → RState → TOutcome × ℚ × ExitReason
  | [], _, s =>
      let p := s.profit + (finalClose - entry) * s.remaining
      if 0 < p then (TOutcome.WIN, p, ExitReason.timeExitProfit)
      else (TOutcome.LOSS, p, ExitReason.timeExitLoss)
  | c :: cs, i, s =>
      let newHigh := s.extreme < c.high
      let extreme1 := if newHigh then c.high else s.extreme
      let halfway := entry + (tp1 - entry) * (1/2)
      let trailing1 :=
        if newHigh ∧ useTrailing = true ∧ s.partialDone = false ∧ halfway ≤ extreme1 then
          max s.trailing entry
        else s.trailing
      if c.low ≤ trailing1 then
        (TOutcome.LOSS, s.profit + (trailing1 - entry) * s.remaining, ExitReason.stopHit i)
      else if s.partialDone = false ∧ tp2 ≤ c.high then
        (TOutcome.WIN, s.profit + (tp2 - entry) * s.remaining, ExitReason.tp2Hit i)
      else if s.partialDone = false ∧ tp1 ≤ c.high then
        rmCallLoop entry tp1 tp2 finalClose useTrailing cs (i + 1)
          ⟨entry, 1/2, s.profit + (tp1 - entry) * (1/2), true, extreme1⟩
      else
        rmCallLoop entry tp1 tp2 finalClose useTrailing cs (i + 1)
          { s with trailing := trailing1, extreme := extreme1 }

/-- The PUT loop of `simulate_trade_outcome_advanced`
(validate_real_market.py:195-238). -/
def rmPutLoop (entry tp1 tp2 finalClose : ℚ) (useTrailing : Bool) :
    List Candle → ℕ → RState → TOutcome × ℚ × ExitReason
  | [], _, s =>
      let p := s.profit + (entry - finalClose) * s.remaining
      if 0 < p then (TOutcome.WIN, p, ExitReason.timeExitProfit)
      else (TOutcome.LOSS, p, ExitReason.timeExitLoss)
  | c :: cs, i, s =>
      let newLow := c.low < s.extreme
      let extreme1 := if newLow then c.low else s.extreme
      let halfway := entry - (entry - tp1) * (1/2)
      let trailing1 :=
        if newLow ∧ useTrailing = true ∧ s.partialDone = false ∧ extreme1 ≤ halfway then
          min s.trailing entry
        else s.trailing
      if trailing1 ≤ c.high then
        (TOutcome.LOSS, s.profit + (entry - trailing1) * s.remaining, ExitReason.stopHit i)
      else if s.partialDone = false ∧ c.low ≤ tp2 then
        (TOutcome.WIN, s.profit + (entry - tp2) * s.remaining, ExitReason.tp2Hit i)
      else if s.partialDone = false ∧ c.low ≤ tp1 then
        rmPutLoop entry tp1 tp2 finalClose useTrailing cs (i + 1)
          ⟨entry, 1/2, s.profit + (entry - tp1) * (1/2), true, extreme1⟩
      else
        rmPutLoop entry tp1 tp2 finalClose useTrailing cs (i + 1)
          { s with trailing := trailing1, extreme := extreme1 }

/-- `simulate_trade_outcome_advanced` (validate_real_market.py:131). -/
def simulate_trade_outcome_advanced (signal : String) (entry sl tp1 tp2 : ℚ)
    (candlesAfter : List Candle) (useTrailing : Bool) : TOutcome × ℚ × ExitReason :=
  if candlesAfter.length < 5 then (TOutcome.NEUTRAL, 0, ExitReason.insufficientData)
  else
    let maxCandles := min candlesAfter.length 20
    let cs := candlesAfter.take maxCandles
    let finalClose := (cs.getLastD defaultCandle).close
    if signal = "CALL" then
      rmCallLoop entry tp1 tp2 finalClose useTrailing cs 0 ⟨sl, 1, 0, false, entry⟩
    else if signal = "PUT" then
      rmPutLoop entry tp1 tp2 finalClose useTrailing cs 0 ⟨sl, 1, 0, false, entry⟩
    else (TOutcome.NEUTRAL, 0, ExitReason.noSignal)

end ValidateRealMarket

/-! Concrete inputs used by counterexamples and witnesses.  Timestamps are
irrelevant to every function under verification and are set to 0. -/

def mkC (o h l c v : ℚ) : Candle := ⟨0, o, h, l, c, v⟩

/-- A 2-candle window (shorter than every profile minimum). -/
def shortWindow : List Candle := [mkC 1 1 1 1 1, mkC 1 1 1 1 1]

/-- A single-candle window. -/
def oneCandle : List Candle := [mkC 1 1 1 1 1]

/-- Future window for the deep-target-after-partial scenario (entry 100,
stop 95, TP1 103, TP2 106): candle 0 touches TP1 only, candle 1 touches TP2,
candle 2 closes back at entry; no low ever reaches the stop. -/
def c3Candles : List Candle :=
  [mkC 100 104 99 102 1, mkC 100 107 99 105 1, mkC 100 101 99 100 1]

/-- Future window touching neither stop 90 nor targets 110/120, final close
at the entry price 100. -/
def c4Candles : List Candle :=
  [mkC 100 105 95 102 1, mkC 100 105 95 101 1, mkC 100 105 95 100 1]

/-- Future window for the stop-after-partial scenario (entry 100, stop 95,
TP1 103, TP2 110): candle 0 touches TP1 (70% partial), candle 1 falls to 94,
through both the entry price and the original stop. -/
def c5Candles : List Candle :=
  [mkC 100 104 99 102 1, mkC 100 100 94 96 1, mkC 100 100 99 100 1]

/-- A 30-candle series whose close drops 10% over its last 24 bars. -/
def c7Candles : List Candle :=
  List.replicate 29 (mkC 100 100 100 100 1) ++ [mkC 90 90 90 90 1]

/-- A 50-candle constant series. -/
def c7LongCandles : List Candle := List.replicate 50 (mkC 100 100 100 100 1)

/-- Post-TP1-partial state of the crypto simulator CALL walk: 30% already
booked (profit 3/500 at entry 100, TP1 103), stop moved to the entry
price. -/
def postTp1State : ValidateCryptoV2.CState := ⟨100, 7/10, 3/500, true, false, 104⟩

/-- Post-TP1-partial state of the crypto simulator PUT walk (entry 100,
lowest extreme 96). -/
def postTp1StatePut : ValidateCryptoV2.CState := ⟨100, 7/10, 3/500, true, false, 96⟩

/-- Post-TP1-partial state of the real-market CALL walk: 50% closed, stop at
the entry price 100. -/
def postPartialRmCall : ValidateRealMarket.RState := ⟨100, 1/2, 3/2, true, 104⟩

/-- Post-TP1-partial state of the real-market PUT walk. -/
def postPartialRmPut : ValidateRealMarket.RState := ⟨100, 1/2, 3/2, true, 96⟩

/-! Helper lemmas. -/

theorem mean_nonneg (l : List ℚ) (h : ∀ x ∈ l, 0 ≤ x) : 0 ≤ mean l :=
  div_nonneg (List.sum_nonneg h) (Nat.cast_nonneg _)

theorem mean_eq_zero (l : List ℚ) (h : ∀ x ∈ l, x = 0) : mean l = 0 := by
  unfold mean
  rw [List.sum_eq_zero h, zero_div]

theorem mean_const (c : ℚ) (l : List ℚ) (h0 : l ≠ []) (h : ∀ x ∈ l, x = c) :
    mean l = c := by
  have hlen0 : l.length ≠ 0 := by simpa [List.length_eq_zero] using h0
  have hlen : (l.length : ℚ) ≠ 0 := by exact_mod_cast hlen0
  unfold mean
  rw [List.sum_eq_card_nsmul l c h, nsmul_eq_mul, mul_comm,
    mul_div_assoc, div_self hlen, mul_one]

theorem ema_foldl_const (m c : ℚ) :
    ∀ l : List ℚ, (∀ x ∈ l, x = c) →
      l.foldl (fun e p => (p - e) * m + e) c = c := by
  intro l
  induction l with
  | nil => intro _; rfl
  | cons a t ih =>
      intro h
      have ha : a = c := h a (List.mem_cons_self a t)
      rw [List.foldl_cons, ha, sub_self, zero_mul, zero_add]
      exact ih fun x hx => h x (List.mem_cons_of_mem _ hx)

theorem forexCallLoop_no_touch (entry sl tp1 tp2 : ℚ) :
    ∀ (l : List Candle) (i : ℕ) (b : Bool) (pos p : ℚ),
      (∀ c ∈ l, sl < c.low ∧ c.high < tp1 ∧ c.high < tp2) →
      ValidateForexFinal.forexCallLoop entry sl tp1 tp2 entry l i b pos p
        = (if 0 < p then TOutcome.WIN else TOutcome.LOSS, p, ExitReason.timeExit) := by
  intro l
  induction l with
  | nil =>
      intro i b pos p _
      simp [ValidateForexFinal.forexCallLoop]
  | cons c t ih =>
      intro i b pos p h
      obtain ⟨h1, h2, h3⟩ := h c (List.mem_cons_self c t)
      rw [ValidateForexFinal.forexCallLoop,
        if_neg (not_le.mpr h1),
        if_neg (by rintro ⟨-, hh⟩; exact absurd hh (not_le.mpr h3)),
        if_neg (by rintro ⟨-, hh⟩; exact absurd hh (not_le.mpr h2))]
      exact ih (i + 1) b pos p fun x hx => h x (List.mem_cons_of_mem _ hx)

theorem forexPutLoop_no_touch (entry sl tp1 tp2 : ℚ) :
    ∀ (l : List Candle) (i : ℕ) (b : Bool) (pos p : ℚ),
      (∀ c ∈ l, c.high < sl ∧ tp1 < c.low ∧ tp2 < c.low) →
      ValidateForexFinal.forexPutLoop entry sl tp1 tp2 entry l i b pos p
        = (if 0 < p then TOutcome.WIN else TOutcome.LOSS, p, ExitReason.timeExit) := by
  intro l
  induction l with
  | nil =>
      intro i b pos p _
      simp [ValidateForexFinal.forexPutLoop]
  | cons c t ih =>
      intro i b pos p h
      obtain ⟨h1, h2, h3⟩ := h c (List.mem_cons_self c t)
      rw [ValidateForexFinal.forexPutLoop,
        if_neg (not_le.mpr h1),
        if_neg (by rintro ⟨-, hh⟩; exact absurd hh (not_le.mpr h3)),
        if_neg (by rintro ⟨-, hh⟩; exact absurd hh (not_le.mpr h2))]
      exact ih (i + 1) b pos p fun x hx => h x (List.mem_cons_of_mem _ hx)

/-! Claim theorems. -/

/-- C1 (counterexample): the claim says every window shorter than the
configured minimum yields decision WAIT with score 0 for every engine.
`TradingEngine.analyze` has no such gate (trading_engine.py:245 only logs a
warning): on a 2-candle window it still runs the scorer and returns
score 28 ≠ 0. -/
theorem c1_counterexample :
    shortWindow.length < 50 ∧
    (TradingEngine.analyze 70 2 10000 shortWindow).map TradingEngine.TradingSignal.score
      = some 28 ∧ (28 : ℤ) ≠ 0 := by
  refine ⟨by decide, ?_, by decide⟩
  norm_num [TradingEngine.analyze, TradingEngine.mkSignal, TradingEngine.teScore,
    TradingEngine.teTrendPair, TradingEngine.tePullback, TradingEngine.teRsiScore,
    TradingEngine.teVolumeScore, TradingEngine.tePattern, TradingEngine.teEma20,
    TradingEngine.teEma50, TradingEngine.teRsi, TradingEngine.teCloses,
    TradingEngine.teCurrentPrice, TradingEngine.analyzeTrend, TradingEngine.analyzePullback,
    TradingEngine.analyzeRsi, TradingEngine.analyzeVolume, TradingEngine.detect_candle_pattern,
    TechnicalIndicators.calculate_ema, TechnicalIndicators.calculate_rsi, mean,
    shortWindow, mkC]

/-- C1 (amended): ScalpingEngine (minimum 50 bars) and AdvancedTradingEngine
(minimum 100 bars) return the fixed fallback WAIT signal — in particular
decision WAIT and score 0 — on every shorter window; TradingEngine performs
no short-window gate at all. -/
theorem c1_amended :
    (∀ cs : List Candle, cs.length < 50 →
        ScalpingEngine.analyze cs = ScalpingEngine.waitSignal "Dados insuficientes")
    ∧ (∀ cs : List Candle, cs.length < 100 →
        AdvancedEngine.analyze cs = AdvancedEngine.waitSignal "Dados insuficientes") := by
  constructor
  · intro cs h
    unfold ScalpingEngine.analyze
    rw [if_pos h]
  · intro cs h
    unfold AdvancedEngine.analyze
    rw [if_pos h]

theorem c1_amended_witness :
    ScalpingEngine.analyze [] = ScalpingEngine.waitSignal "Dados insuficientes" ∧
    AdvancedEngine.analyze [] = AdvancedEngine.waitSignal "Dados insuficientes" :=
  ⟨c1_amended.1 [] (by decide), c1_amended.2 [] (by decide)⟩

/-- C2 (counterexample): the claim says every engine returns a signal for
every candle list including the empty one.  `TradingEngine.analyze` reads
`candles[-1]` before any guard, raising `IndexError` on the empty list
(modelled as `none`). -/
theorem c2_counterexample :
    TradingEngine.analyze 70 2 10000 [] = none := rfl

/-- C2 (amended): ScalpingEngine and AdvancedTradingEngine handle routine
data insufficiency by documented fallbacks (short-window WAIT gate, volume
ratio 1.0, neutral RSI 50) and never raise; TradingEngine returns a signal
for every NON-empty window but raises IndexError on the empty one. -/
theorem c2_amended :
    (∀ (minScore : ℤ) (rrMin capital : ℚ) (cs : List Candle), cs ≠ [] →
        (TradingEngine.analyze minScore rrMin capital cs).isSome = true)
    ∧ (∀ cs : List Candle, cs.length < 20 → ScalpingEngine.check_volume_surge cs = 1)
    ∧ (∀ (prices : List ℚ) (period : ℕ), prices.length < period + 1 →
        TechnicalIndicators.calculate_rsi prices period = 50) := by
  refine ⟨?_, ?_, ?_⟩
  · intro minScore rrMin capital cs h
    cases cs with
    | nil => exact absurd rfl h
    | cons a t => rfl
  · intro cs h
    unfold ScalpingEngine.check_volume_surge
    rw [if_pos h]
  · intro prices period h
    unfold TechnicalIndicators.calculate_rsi
    rw [if_pos h]

theorem c2_amended_witness :
    (TradingEngine.analyze 70 2 10000 shortWindow).isSome = true ∧
    ScalpingEngine.check_volume_surge [] = 1 ∧
    TechnicalIndicators.calculate_rsi [] 14 = 50 :=
  ⟨c2_amended.1 70 2 10000 shortWindow (by decide), c2_amended.2.1 [] (by decide),
    c2_amended.2.2 [] 14 (by decide)⟩

/-- C3 (counterexample): the claim says that after a 70% partial exit at TP1
a later candle reaching TP2 closes the remaining 30% there and terminates
with a TAKE_PROFIT exit.  In `simulate_forex_trade` the TP2 branch is
guarded by `not tp1_hit` (validate_forex_final.py:90): with entry 100,
stop 95, TP1 103, TP2 106, candle 0 takes the partial and candle 1 touches
TP2 (high 107) with the stop untouched, yet the walk runs to the time exit
instead of a TP2 exit. -/
theorem c3_counterexample :
    ValidateForexFinal.simulate_forex_trade "CALL" 100 95 103 106 c3Candles
      = (TOutcome.WIN, 3/500, ExitReason.timeExit)
    ∧ (106 : ℚ) ≤ (c3Candles.getD 1 defaultCandle).high
    ∧ (95 : ℚ) < (c3Candles.getD 1 defaultCandle).low := by
  refine ⟨?_, by decide, by decide⟩
  norm_num [ValidateForexFinal.simulate_forex_trade, ValidateForexFinal.forexCallLoop,
    ValidateForexFinal.totalCostPct, c3Candles, mkC, defaultCandle, List.getLastD]

/-- C3 (amended): in either direction, a candle whose favorable extreme
reaches the deepest target with the stop not hit closes the FULL position
there and terminates with a take-profit exit only when NO partial exit has
yet occurred (forex TP2; crypto TP3, which also honours the trailing stop
first); once the TP1 partial has occurred, the `not tp1_hit` guard makes a
TP2 exit unreachable in both the CALL and the PUT walk of the forex
simulator — the remainder leaves only via the stop or the time exit. -/
theorem c3_amended :
    (∀ (entry sl tp1 tp2 fc : ℚ) (c : Candle) (cs : List Candle) (i : ℕ) (pos p : ℚ),
        ¬(c.low ≤ sl) → tp2 ≤ c.high →
        ValidateForexFinal.forexCallLoop entry sl tp1 tp2 fc (c :: cs) i false pos p
          = (TOutcome.WIN, p + (tp2 - entry) / entry, ExitReason.tp2Hit i))
    ∧ (∀ (entry sl tp1 tp2 fc : ℚ) (c : Candle) (cs : List Candle) (i : ℕ) (pos p : ℚ),
        ¬(sl ≤ c.high) → c.low ≤ tp2 →
        ValidateForexFinal.forexPutLoop entry sl tp1 tp2 fc (c :: cs) i false pos p
          = (TOutcome.WIN, p + (entry - tp2) / entry, ExitReason.tp2Hit i))
    ∧ (∀ (entry tp1 tp2 tp3 fc : ℚ) (c : Candle) (cs : List Candle) (i : ℕ)
          (s : ValidateCryptoV2.CState),
        s.tp1Hit = false → s.trailing < c.low → entry < c.low → tp3 ≤ c.high →
        ValidateCryptoV2.cryptoCallLoop entry tp1 tp2 tp3 fc (c :: cs) i s
          = (TOutcome.WIN, s.profit + (tp3 - entry) * s.pos, ExitReason.tp3Hit i))
    ∧ (∀ (entry tp1 tp2 tp3 fc : ℚ) (c : Candle) (cs : List Candle) (i : ℕ)
          (s : ValidateCryptoV2.CState),
        s.tp1Hit = false → c.high < s.trailing → c.high < entry → c.low ≤ tp3 →
        ValidateCryptoV2.cryptoPutLoop entry tp1 tp2 tp3 fc (c :: cs) i s
          = (TOutcome.WIN, s.profit + (entry - tp3) * s.pos, ExitReason.tp3Hit i))
    ∧ (∀ (entry sl tp1 tp2 fc : ℚ) (cs : List Candle) (i : ℕ) (pos p : ℚ) (j : ℕ),
        (ValidateForexFinal.forexCallLoop entry sl tp1 tp2 fc cs i true pos p).2.2
          ≠ ExitReason.tp2Hit j)
    ∧ (∀ (entry sl tp1 tp2 fc : ℚ) (cs : List Candle) (i : ℕ) (pos p : ℚ) (j : ℕ),
        (ValidateForexFinal.forexPutLoop entry sl tp1 tp2 fc cs i true pos p).2.2
          ≠ ExitReason.tp2Hit j) := by
  refine ⟨?_, ?_, ?_, ?_, ?_, ?_⟩
  · intro entry sl tp1 tp2 fc c cs i pos p hsl htp2
    simp only [ValidateForexFinal.forexCallLoop]
    rw [if_neg hsl, if_pos ⟨trivial, htp2⟩]
  · intro entry sl tp1 tp2 fc c cs i pos p hsl htp2
    simp only [ValidateForexFinal.forexPutLoop]
    rw [if_neg hsl, if_pos ⟨trivial, htp2⟩]
  · intro entry tp1 tp2 tp3 fc c cs i s hHit hTrail hEntry htp3
    have hmax : max s.trailing entry < c.low := max_lt hTrail hEntry
    simp only [ValidateCryptoV2.cryptoCallLoop]
    split_ifs <;>
      first
        | rfl
        | (exfalso;
           exact (by assumption : ¬(s.tp1Hit = false ∧ tp3 ≤ c.high)) ⟨hHit, htp3⟩)
        | (exfalso; linarith [hmax, hTrail, (by assumption : c.low ≤ max s.trailing entry)])
        | (exfalso; linarith [hmax, hTrail, (by assumption : c.low ≤ s.trailing)])
  · intro entry tp1 tp2 tp3 fc c cs i s hHit hTrail hEntry htp3
    have hmin : c.high < min s.trailing entry := lt_min hTrail hEntry
    simp only [ValidateCryptoV2.cryptoPutLoop]
    split_ifs <;>
      first
        | rfl
        | (exfalso;
           exact (by assumption : ¬(s.tp1Hit = false ∧ c.low ≤ tp3)) ⟨hHit, htp3⟩)
        | (exfalso; linarith [hmin, hTrail, (by assumption : min s.trailing entry ≤ c.high)])
        | (exfalso; linarith [hmin, hTrail, (by assumption : s.trailing ≤ c.high)])
  · intro entry sl tp1 tp2 fc cs
    induction cs with
    | nil =>
        intro i pos p j
        simp [ValidateForexFinal.forexCallLoop]
    | cons c t ih =>
        intro i pos p j
        simp only [ValidateForexFinal.forexCallLoop]
        split
        · simp
        · rw [if_neg (by rintro ⟨hh, -⟩; exact Bool.noConfusion hh),
            if_neg (by rintro ⟨hh, -⟩; exact Bool.noConfusion hh)]
          exact ih (i + 1) pos p j
  · intro entry sl tp1 tp2 fc cs
    induction cs with
    | nil =>
        intro i pos p j
        simp [ValidateForexFinal.forexPutLoop]
    | cons c t ih =>
        intro i pos p j
        simp only [ValidateForexFinal.forexPutLoop]
        split
        · simp
        · rw [if_neg (by rintro ⟨hh, -⟩; exact Bool.noConfusion hh),
            if_neg (by rintro ⟨hh, -⟩; exact Bool.noConfusion hh)]
          exact ih (i + 1) pos p j

theorem c3_amended_witness :
    ValidateForexFinal.forexCallLoop 100 95 103 106 100
        [mkC 100 107 99 105 1, mkC 100 101 99 100 1] 0 false 1 0
      = (TOutcome.WIN, 0 + (106 - 100) / 100, ExitReason.tp2Hit 0) ∧
    ValidateForexFinal.forexPutLoop 100 105 97 94 100
        [mkC 100 101 93 95 1, mkC 100 101 99 100 1] 0 false 1 0
      = (TOutcome.WIN, 0 + (100 - 94) / 100, ExitReason.tp2Hit 0) ∧
    ValidateCryptoV2.cryptoCallLoop 100 103 106 112 100
        [mkC 100 113 101 110 1] 0 ⟨95, 1, 0, false, false, 100⟩
      = (TOutcome.WIN, 0 + (112 - 100) * 1, ExitReason.tp3Hit 0) ∧
    ValidateCryptoV2.cryptoPutLoop 100 97 94 88 100
        [mkC 99 99 87 90 1] 0 ⟨105, 1, 0, false, false, 100⟩
      = (TOutcome.WIN, 0 + (100 - 88) * 1, ExitReason.tp3Hit 0) ∧
    (ValidateForexFinal.forexCallLoop 100 95 103 106 100 c3Candles 0 true (3/10) 0).2.2
      ≠ ExitReason.tp2Hit 1 ∧
    (ValidateForexFinal.forexPutLoop 100 105 97 94 100 c3Candles 0 true (3/10) 0).2.2
      ≠ ExitReason.tp2Hit 1 :=
  ⟨c3_amended.1 100 95 103 106 100 (mkC 100 107 99 105 1) [mkC 100 101 99 100 1] 0 1 0
      (by decide) (by decide),
    c3_amended.2.1 100 105 97 94 100 (mkC 100 101 93 95 1) [mkC 100 101 99 100 1] 0 1 0
      (by decide) (by decide),
    c3_amended.2.2.1 100 103 106 112 100 (mkC 100 113 101 110 1) [] 0
      ⟨95, 1, 0, false, false, 100⟩ (by decide) (by decide) (by decide) (by decide),
    c3_amended.2.2.2.1 100 97 94 88 100 (mkC 99 99 87 90 1) [] 0
      ⟨105, 1, 0, false, false, 100⟩ (by decide) (by decide) (by decide) (by decide),
    c3_amended.2.2.2.2.1 100 95 103 106 100 c3Candles 0 (3/10) 0 1,
    c3_amended.2.2.2.2.2 100 105 97 94 100 c3Candles 0 (3/10) 0 1⟩

/-- C4 (counterexample): the claim says a no-touch window whose final close
equals the entry yields LOSS of exactly the one-time transaction cost.  In
`simulate_realistic_trade` (audit_complete.py:69 and 99) the cost is
deducted at open AND again on the time-exit leg: at entry 100 the cost is
1/4 but the returned P&L is −1/2. -/
theorem c4_counterexample :
    AuditComplete.simulate_realistic_trade "CALL" 100 90 110 120 c4Candles false
      = (TOutcome.LOSS, -(1/2), ExitReason.timeExit, ["Time exit"])
    ∧ -(1/2 : ℚ) ≠ -(AuditComplete.totalCostPct * 100) := by
  constructor
  · norm_num [AuditComplete.simulate_realistic_trade, AuditComplete.auditCallLoop,
      AuditComplete.totalCostPct, c4Candles, mkC, defaultCandle, List.getLastD]
  · norm_num [AuditComplete.totalCostPct]

/-- C4 (amended): in both directions of `simulate_forex_trade`, a future
window (≥ 3 candles) that touches neither the stop nor any target and whose
final close equals the entry price exits on time with P&L exactly
−0.00015·entry, the one-time transaction cost, and outcome LOSS;
`simulate_realistic_trade` (audit_complete.py) instead deducts its cost a
second time on the time-exit leg, returning −2·cost on the same scenario. -/
theorem c4_amended :
    (∀ (entry sl tp1 tp2 : ℚ) (cs : List Candle), 3 ≤ cs.length → 0 < entry →
      (∀ c ∈ cs.take (min cs.length 10), sl < c.low ∧ c.high < tp1 ∧ c.high < tp2) →
      ((cs.take (min cs.length 10)).getLastD defaultCandle).close = entry →
      ValidateForexFinal.simulate_forex_trade "CALL" entry sl tp1 tp2 cs
        = (TOutcome.LOSS, -(ValidateForexFinal.totalCostPct * entry), ExitReason.timeExit))
    ∧ (∀ (entry sl tp1 tp2 : ℚ) (cs : List Candle), 3 ≤ cs.length → 0 < entry →
      (∀ c ∈ cs.take (min cs.length 10), c.high < sl ∧ tp1 < c.low ∧ tp2 < c.low) →
      ((cs.take (min cs.length 10)).getLastD defaultCandle).close = entry →
      ValidateForexFinal.simulate_forex_trade "PUT" entry sl tp1 tp2 cs
        = (TOutcome.LOSS, -(ValidateForexFinal.totalCostPct * entry),
            ExitReason.timeExit)) := by
  constructor
  · intro entry sl tp1 tp2 cs h3 hpos hno hfc
    have hc : (0 : ℚ) < ValidateForexFinal.totalCostPct * entry :=
      mul_pos (by norm_num [ValidateForexFinal.totalCostPct]) hpos
    simp only [ValidateForexFinal.simulate_forex_trade]
    rw [if_neg (not_lt.mpr h3), if_pos trivial, hfc,
      forexCallLoop_no_touch entry sl tp1 tp2 _ 0 false 1 _ hno, neg_mul,
      if_neg (by linarith : ¬ (0:ℚ) < -(ValidateForexFinal.totalCostPct * entry))]
  · intro entry sl tp1 tp2 cs h3 hpos hno hfc
    have hc : (0 : ℚ) < ValidateForexFinal.totalCostPct * entry :=
      mul_pos (by norm_num [ValidateForexFinal.totalCostPct]) hpos
    simp only [ValidateForexFinal.simulate_forex_trade]
    rw [if_neg (not_lt.mpr h3), if_neg (show ¬("PUT" = "CALL") by decide), hfc,
      forexPutLoop_no_touch entry sl tp1 tp2 _ 0 false 1 _ hno, neg_mul,
      if_neg (by linarith : ¬ (0:ℚ) < -(ValidateForexFinal.totalCostPct * entry))]

theorem c4_amended_witness :
    ((3 ≤ c4Candles.length) ∧ (0:ℚ) < 100) ∧
    ValidateForexFinal.simulate_forex_trade "CALL" 100 90 110 120 c4Candles
      = (TOutcome.LOSS, -(ValidateForexFinal.totalCostPct * 100), ExitReason.timeExit) ∧
    ValidateForexFinal.simulate_forex_trade "PUT" 100 110 90 80 c4Candles
      = (TOutcome.LOSS, -(ValidateForexFinal.totalCostPct * 100), ExitReason.timeExit) :=
  ⟨⟨by decide, by decide⟩,
    c4_amended.1 100 90 110 120 c4Candles (by decide) (by decide) (by decide) (by decide),
    c4_amended.2 100 110 90 80 c4Candles (by decide) (by decide) (by decide) (by decide)⟩

/-- C5 (counterexample): the claim says that after the 70% partial exit at
TP1 the stop moves to breakeven, so the remainder can never be stopped at
the original stop price.  `simulate_forex_trade` never moves `sl`
(validate_forex_final.py:83-99): with entry 100, stop 95, TP1 103, candle 0
takes the 70% partial, and candle 1 (low 94) is stopped at the ORIGINAL
stop 95 — the returned P&L −11/250 contains the full
(sl−entry)/entry = −5% stop leg — instead of the remainder being closed at
the entry price. -/
theorem c5_counterexample :
    ValidateForexFinal.simulate_forex_trade "CALL" 100 95 103 110 c5Candles
      = (TOutcome.LOSS, -(11/250), ExitReason.stopHit 1)
    ∧ (103 : ℚ) ≤ (c5Candles.getD 0 defaultCandle).high
    ∧ (c5Candles.getD 1 defaultCandle).low ≤ 95 := by
  refine ⟨?_, by decide, by decide⟩
  norm_num [ValidateForexFinal.simulate_forex_trade, ValidateForexFinal.forexCallLoop,
    ValidateForexFinal.totalCostPct, c5Candles, mkC, defaultCandle, List.getLastD]

/-- C5 (amended): in `simulate_trade_advanced` (validate_crypto_v2.py, whose
TP1 partial closes 30%, not 70%) and in `simulate_trade_outcome_advanced`
(validate_real_market.py, 50% partial), in both directions, the stop after
the TP1 partial is the entry price: any later candle whose adverse extreme
(the low for CALL, the high for PUT) reaches the entry terminates at the
stop with ZERO additional P&L (breakeven close), and every post-partial
stop-out realizes exactly the profit already accumulated — the original
stop-loss price is never consulted again.  `simulate_forex_trade` (the 70%
partial the claim describes) never reassigns its stop, and its remainder can
be stopped out at the original, wider stop-loss price, as the counterexample
shows. -/
theorem c5_amended :
    (∀ (entry tp1 tp2 tp3 fc : ℚ) (c : Candle) (cs : List Candle) (i : ℕ)
        (s : ValidateCryptoV2.CState),
      s.tp1Hit = true → s.trailing = entry → c.low ≤ entry →
      ValidateCryptoV2.cryptoCallLoop entry tp1 tp2 tp3 fc (c :: cs) i s
        = (TOutcome.LOSS, s.profit, ExitReason.stopHit i))
    ∧ (∀ (entry tp1 tp2 tp3 fc : ℚ) (cs : List Candle) (i j : ℕ)
        (s : ValidateCryptoV2.CState),
      s.tp1Hit = true → s.trailing = entry →
      (ValidateCryptoV2.cryptoCallLoop entry tp1 tp2 tp3 fc cs i s).2.2
        = ExitReason.stopHit j →
      (ValidateCryptoV2.cryptoCallLoop entry tp1 tp2 tp3 fc cs i s).2.1 = s.profit)
    ∧ (∀ (entry tp1 tp2 tp3 fc : ℚ) (c : Candle) (cs : List Candle) (i : ℕ)
        (s : ValidateCryptoV2.CState),
      s.tp1Hit = true → s.trailing = entry → entry ≤ c.high →
      ValidateCryptoV2.cryptoPutLoop entry tp1 tp2 tp3 fc (c :: cs) i s
        = (TOutcome.LOSS, s.profit, ExitReason.stopHit i))
    ∧ (∀ (entry tp1 tp2 tp3 fc : ℚ) (cs : List Candle) (i j : ℕ)
        (s : ValidateCryptoV2.CState),
      s.tp1Hit = true → s.trailing = entry →
      (ValidateCryptoV2.cryptoPutLoop entry tp1 tp2 tp3 fc cs i s).2.2
        = ExitReason.stopHit j →
      (ValidateCryptoV2.cryptoPutLoop entry tp1 tp2 tp3 fc cs i s).2.1 = s.profit)
    ∧ (∀ (entry tp1 tp2 fc : ℚ) (u : Bool) (c : Candle) (cs : List Candle) (i : ℕ)
        (s : ValidateRealMarket.RState),
      s.partialDone = true → s.trailing = entry → c.low ≤ entry →
      ValidateRealMarket.rmCallLoop entry tp1 tp2 fc u (c :: cs) i s
        = (TOutcome.LOSS, s.profit, ExitReason.stopHit i))
    ∧ (∀ (entry tp1 tp2 fc : ℚ) (u : Bool) (cs : List Candle) (i j : ℕ)
        (s : ValidateRealMarket.RState),
      s.partialDone = true → s.trailing = entry →
      (ValidateRealMarket.rmCallLoop entry tp1 tp2 fc u cs i s).2.2
        = ExitReason.stopHit j →
      (ValidateRealMarket.rmCallLoop entry tp1 tp2 fc u cs i s).2.1 = s.profit)
    ∧ (∀ (entry tp1 tp2 fc : ℚ) (u : Bool) (c : Candle) (cs : List Candle) (i : ℕ)
        (s : ValidateRealMarket.RState),
      s.partialDone = true → s.trailing = entry → entry ≤ c.high →
      ValidateRealMarket.rmPutLoop entry tp1 tp2 fc u (c :: cs) i s
        = (TOutcome.LOSS, s.profit, ExitReason.stopHit i))
    ∧ (∀ (entry tp1 tp2 fc : ℚ) (u : Bool) (cs : List Candle) (i j : ℕ)
        (s : ValidateRealMarket.RState),
      s.partialDone = true → s.trailing = entry →
      (ValidateRealMarket.rmPutLoop entry tp1 tp2 fc u cs i s).2.2
        = ExitReason.stopHit j →
      (ValidateRealMarket.rmPutLoop entry tp1 tp2 fc u cs i s).2.1 = s.profit) := by
  refine ⟨?_, ?_, ?_, ?_, ?_, ?_, ?_, ?_⟩
  · intro entry tp1 tp2 tp3 fc c cs i s hHit hTrail hLow
    simp only [ValidateCryptoV2.cryptoCallLoop, hHit]
    simp only [show (true = false) = False from by simp, false_and, and_false, if_false]
    rw [hTrail, if_pos hLow, sub_self, zero_mul, add_zero]
  · intro entry tp1 tp2 tp3 fc cs
    induction cs with
    | nil =>
        intro i j s _ _ habs
        simp [ValidateCryptoV2.cryptoCallLoop] at habs
    | cons c t ih =>
        intro i j s hHit hTrail habs
        simp only [ValidateCryptoV2.cryptoCallLoop, hHit,
          show (true = false) = False from by simp, false_and, and_false, if_false,
          hTrail] at habs ⊢
        by_cases hLow : c.low ≤ entry
        · rw [if_pos hLow] at habs ⊢
          rw [sub_self, zero_mul, add_zero]
        · rw [if_neg hLow] at habs ⊢
          exact ih (i + 1) j _ rfl rfl habs
  · intro entry tp1 tp2 tp3 fc c cs i s hHit hTrail hHigh
    simp only [ValidateCryptoV2.cryptoPutLoop, hHit]
    simp only [show (true = false) = False from by simp, false_and, and_false, if_false]
    rw [hTrail, if_pos hHigh, sub_self, zero_mul, add_zero]
  · intro entry tp1 tp2 tp3 fc cs
    induction cs with
    | nil =>
        intro i j s _ _ habs
        simp [ValidateCryptoV2.cryptoPutLoop] at habs
    | cons c t ih =>
        intro i j s hHit hTrail habs
        simp only [ValidateCryptoV2.cryptoPutLoop, hHit,
          show (true = false) = False from by simp, false_and, and_false, if_false,
          hTrail] at habs ⊢
        by_cases hHigh : entry ≤ c.high
        · rw [if_pos hHigh] at habs ⊢
          rw [sub_self, zero_mul, add_zero]
        · rw [if_neg hHigh] at habs ⊢
          exact ih (i + 1) j _ rfl rfl habs
  · intro entry tp1 tp2 fc u c cs i s hPart hTrail hLow
    simp only [ValidateRealMarket.rmCallLoop, hPart]
    simp only [show (true = false) = False from by simp, false_and, and_false, if_false]
    rw [hTrail, if_pos hLow, sub_self, zero_mul, add_zero]
  · intro entry tp1 tp2 fc u cs
    induction cs with
    | nil =>
        intro i j s _ _ habs
        simp only [ValidateRealMarket.rmCallLoop] at habs
        split at habs <;> simp at habs
    | cons c t ih =>
        intro i j s hPart hTrail habs
        simp only [ValidateRealMarket.rmCallLoop, hPart,
          show (true = false) = False from by simp, false_and, and_false, if_false,
          hTrail] at habs ⊢
        by_cases hLow : c.low ≤ entry
        · rw [if_pos hLow] at habs ⊢
          rw [sub_self, zero_mul, add_zero]
        · rw [if_neg hLow] at habs ⊢
          exact ih (i + 1) j _ rfl rfl habs
  · intro entry tp1 tp2 fc u c cs i s hPart hTrail hHigh
    simp only [ValidateRealMarket.rmPutLoop, hPart]
    simp only [show (true = false) = False from by simp, false_and, and_false, if_false]
    rw [hTrail, if_pos hHigh, sub_self, zero_mul, add_zero]
  · intro entry tp1 tp2 fc u cs
    induction cs with
    | nil =>
        intro i j s _ _ habs
        simp only [ValidateRealMarket.rmPutLoop] at habs
        split at habs <;> simp at habs
    | cons c t ih =>
        intro i j s hPart hTrail habs
        simp only [ValidateRealMarket.rmPutLoop, hPart,
          show (true = false) = False from by simp, false_and, and_false, if_false,
          hTrail] at habs ⊢
        by_cases hHigh : entry ≤ c.high
        · rw [if_pos hHigh] at habs ⊢
          rw [sub_self, zero_mul, add_zero]
        · rw [if_neg hHigh] at habs ⊢
          exact ih (i + 1) j _ rfl rfl habs

theorem c5_amended_witness :
    ValidateCryptoV2.cryptoCallLoop 100 103 110 115 100 [mkC 100 100 99 99 1] 0 postTp1State
      = (TOutcome.LOSS, postTp1State.profit, ExitReason.stopHit 0) ∧
    ValidateCryptoV2.cryptoPutLoop 100 97 94 88 100 [mkC 100 101 99 100 1] 0 postTp1StatePut
      = (TOutcome.LOSS, postTp1StatePut.profit, ExitReason.stopHit 0) ∧
    ValidateRealMarket.rmCallLoop 100 103 110 100 true [mkC 100 100 99 99 1] 0
        postPartialRmCall
      = (TOutcome.LOSS, postPartialRmCall.profit, ExitReason.stopHit 0) ∧
    ValidateRealMarket.rmPutLoop 100 97 94 100 true [mkC 100 101 99 100 1] 0
        postPartialRmPut
      = (TOutcome.LOSS, postPartialRmPut.profit, ExitReason.stopHit 0) :=
  ⟨c5_amended.1 100 103 110 115 100 (mkC 100 100 99 99 1) [] 0 postTp1State
      (by decide) (by decide) (by decide),
    c5_amended.2.2.1 100 97 94 88 100 (mkC 100 101 99 100 1) [] 0 postTp1StatePut
      (by decide) (by decide) (by decide),
    c5_amended.2.2.2.2.1 100 103 110 100 true (mkC 100 100 99 99 1) [] 0 postPartialRmCall
      (by decide) (by decide) (by decide),
    c5_amended.2.2.2.2.2.2.1 100 97 94 100 true (mkC 100 101 99 100 1) [] 0 postPartialRmPut
      (by decide) (by decide) (by decide)⟩

/-- C6: in each engine a computed reward/risk ratio to the nearest target
below the profile's configured minimum forces the final decision to WAIT —
TradingEngine (minimum `rrMin`, default 2.0, the demotion at
trading_engine.py:347), ScalpingEngine (1.2, scalping_engine.py:244) and
AdvancedTradingEngine (1.8 in NORMAL regime, 2.2 otherwise,
advanced_engine_v3.py:350-353). -/
theorem c6_risk_reward_gate :
    (∀ (minScore : ℤ) (rrMin capital : ℚ) (cs : List Candle)
        (sig : TradingEngine.TradingSignal),
      TradingEngine.analyze minScore rrMin capital cs = some sig →
      sig.risk_reward_1 < rrMin → sig.signal = SignalType.WAIT)
    ∧ (∀ cs : List Candle, ScalpingEngine.seRR cs < 6/5 →
        (ScalpingEngine.analyze cs).signal = SignalType.WAIT)
    ∧ (∀ cs : List Candle, AdvancedEngine.aeRR cs < AdvancedEngine.aeMinRR cs →
        (AdvancedEngine.analyze cs).signal = SignalType.WAIT) := by
  refine ⟨?_, ?_, ?_⟩
  · intro minScore rrMin capital cs sig hsome hlt
    cases cs with
    | nil => simp [TradingEngine.analyze] at hsome
    | cons a t =>
        simp only [TradingEngine.analyze, Option.some.injEq] at hsome
        subst hsome
        simp only [TradingEngine.mkSignal] at hlt ⊢
        unfold TradingEngine.teFinalSig
        by_cases h0 : TradingEngine.teSigType0 minScore (a :: t) = SignalType.WAIT
        · rw [if_neg (by rintro ⟨hne, -⟩; exact hne h0)]
          exact h0
        · rw [if_pos ⟨h0, hlt⟩]
  · intro cs hlt
    unfold ScalpingEngine.analyze
    split_ifs <;>
      first
        | rfl
        | (show (ScalpingEngine.seSetup cs).1 = SignalType.WAIT
           by_contra hne
           exact absurd (⟨hne, hlt⟩ :
             (ScalpingEngine.seSetup cs).1 ≠ SignalType.WAIT ∧ ScalpingEngine.seRR cs < 6/5)
             (by assumption))
  · intro cs hlt
    unfold AdvancedEngine.analyze
    split_ifs <;>
      first
        | rfl
        | (show (AdvancedEngine.aeSetup cs).1 = SignalType.WAIT
           by_contra hne
           exact absurd (⟨hne, hlt⟩ :
             (AdvancedEngine.aeSetup cs).1 ≠ SignalType.WAIT ∧
               AdvancedEngine.aeRR cs < AdvancedEngine.aeMinRR cs)
             (by assumption))

theorem c6_witness :
    (TradingEngine.mkSignal 70 2 10000 oneCandle).signal = SignalType.WAIT ∧
    (ScalpingEngine.analyze []).signal = SignalType.WAIT ∧
    (AdvancedEngine.analyze []).signal = SignalType.WAIT := by
  have hscore : TradingEngine.teScore oneCandle = 28 := by
    norm_num [TradingEngine.teScore, TradingEngine.teTrendPair, TradingEngine.tePullback,
      TradingEngine.teRsiScore, TradingEngine.teVolumeScore, TradingEngine.tePattern,
      TradingEngine.teEma20, TradingEngine.teEma50, TradingEngine.teRsi,
      TradingEngine.teCloses, TradingEngine.teCurrentPrice, TradingEngine.analyzeTrend,
      TradingEngine.analyzePullback, TradingEngine.analyzeRsi, TradingEngine.analyzeVolume,
      TradingEngine.detect_candle_pattern, TechnicalIndicators.calculate_ema,
      TechnicalIndicators.calculate_rsi, mean, oneCandle, mkC]
  have hsig0 : TradingEngine.teSigType0 70 oneCandle = SignalType.WAIT := by
    unfold TradingEngine.teSigType0
    rw [hscore]
    norm_num
  have hatr : TradingEngine.teAtr oneCandle = 0 := rfl
  have hrrw : TradingEngine.teRiskRewards 70 oneCandle = (0, 0, 0) := by
    unfold TradingEngine.teRiskRewards
    rw [hsig0, hatr]
    norm_num
  have hrr : (TradingEngine.mkSignal 70 2 10000 oneCandle).risk_reward_1 < 2 := by
    simp only [TradingEngine.mkSignal]
    unfold TradingEngine.teRR1
    rw [hrrw]
    norm_num
  have hmicro : ScalpingEngine.seMicro [] = ScalpingEngine.MicroTrend.UNCLEAR := rfl
  have hsetup : ScalpingEngine.seSetup [] = (SignalType.WAIT, 0, []) := by
    simp [ScalpingEngine.seSetup, hmicro]
  have hseatr : ScalpingEngine.seAtr [] = 0 := rfl
  have hserr : ScalpingEngine.seRR [] < 6/5 := by
    unfold ScalpingEngine.seRR ScalpingEngine.seRiskReward
    rw [hsetup, hseatr]
    norm_num
  have haemas : AdvancedEngine.aeEmaFast [] = 0 ∧ AdvancedEngine.aeEmaMid [] = 0 ∧
      AdvancedEngine.aeEmaSlow [] = 0 := by
    refine ⟨?_, ?_, ?_⟩ <;>
      norm_num [AdvancedEngine.aeEmaFast, AdvancedEngine.aeEmaMid, AdvancedEngine.aeEmaSlow,
        AdvancedEngine.aeCloses, TechnicalIndicators.calculate_ema, mean]
  have haesetup : AdvancedEngine.aeSetup [] = (SignalType.WAIT, 0, []) := by
    unfold AdvancedEngine.aeSetup
    rw [haemas.1, haemas.2.1, haemas.2.2]
    norm_num
  have haeatr : AdvancedEngine.aeAtr [] = 0 := rfl
  have haerr : AdvancedEngine.aeRR [] < AdvancedEngine.aeMinRR [] := by
    have h1 : AdvancedEngine.aeRR [] = 0 := by
      unfold AdvancedEngine.aeRR AdvancedEngine.aeRiskReward
      rw [haesetup, haeatr]
      norm_num
    have h2 : AdvancedEngine.aeMinRR [] = 9/5 := by
      unfold AdvancedEngine.aeMinRR AdvancedEngine.aeCondition
        AdvancedEngine.detect_market_condition
      norm_num
    rw [h1, h2]
    norm_num
  exact ⟨c6_risk_reward_gate.1 70 2 10000 oneCandle _ rfl hrr,
    c6_risk_reward_gate.2.1 [] hserr, c6_risk_reward_gate.2.2 [] haerr⟩

/-- C7 (counterexample): the claim quantifies over every candle series, but
`detect_market_condition` returns NORMAL for any series shorter than 50
candles (advanced_engine_v3.py:65) even when the 24-bar change is far below
−5%: a 30-candle series with a −10% drop classifies NORMAL, not CRASH. -/
theorem c7_counterexample :
    AdvancedEngine.detect_market_condition c7Candles = MarketCondition.NORMAL
    ∧ AdvancedEngine.change24 c7Candles < -5
    ∧ MarketCondition.NORMAL ≠ MarketCondition.CRASH := by
  refine ⟨?_, ?_, by decide⟩
  · unfold AdvancedEngine.detect_market_condition
    rw [if_pos (by decide : c7Candles.length < 50)]
  · have h1 : ((c7Candles.map Candle.close).getLastD 0) = 90 := by decide
    have h2 : ((lastN 24 (c7Candles.map Candle.close)).headD 0) = 100 := by decide
    simp only [AdvancedEngine.change24]
    rw [h1, h2]
    norm_num

/-- C7 (amended): for series of at least 50 candles the classifier is
exactly the claimed cascade — CRASH if the 24-bar change is below −5%, else
PANIC if the 6-bar change is below −3%, else RECOVERY if the 24-bar change
is below −2% (the prior drawdown) and the 6-bar change is strictly greater
than 1% (the rebound), else NORMAL; any series shorter than 50 candles
classifies NORMAL regardless of its changes. -/
theorem c7_amended :
    (∀ cs : List Candle, 50 ≤ cs.length →
        AdvancedEngine.detect_market_condition cs =
          (if AdvancedEngine.change24 cs < -5 then MarketCondition.CRASH
           else if AdvancedEngine.change6 cs < -3 then MarketCondition.PANIC
           else if AdvancedEngine.change24 cs < -2 ∧ 1 < AdvancedEngine.change6 cs then
             MarketCondition.RECOVERY
           else MarketCondition.NORMAL))
    ∧ (∀ cs : List Candle, cs.length < 50 →
        AdvancedEngine.detect_market_condition cs = MarketCondition.NORMAL) := by
  constructor
  · intro cs h50
    have h24 : 24 ≤ cs.length := by omega
    have h6 : 6 ≤ cs.length := by omega
    unfold AdvancedEngine.detect_market_condition
    rw [if_neg (by omega : ¬ cs.length < 50)]
    simp only [eq_true h24, eq_true h6, true_and]
  · intro cs h
    unfold AdvancedEngine.detect_market_condition
    rw [if_pos h]

theorem c7_amended_witness :
    AdvancedEngine.detect_market_condition c7LongCandles = MarketCondition.NORMAL := by
  have h := c7_amended.1 c7LongCandles (by decide)
  have h1 : ((c7LongCandles.map Candle.close).getLastD 0) = 100 := by decide
  have h2 : ((lastN 24 (c7LongCandles.map Candle.close)).headD 0) = 100 := by decide
  have h3 : ((lastN 6 (c7LongCandles.map Candle.close)).headD 0) = 100 := by decide
  have hc24 : AdvancedEngine.change24 c7LongCandles = 0 := by
    simp only [AdvancedEngine.change24]
    rw [h1, h2]
    norm_num
  have hc6 : AdvancedEngine.change6 c7LongCandles = 0 := by
    simp only [AdvancedEngine.change6]
    rw [h1, h3]
    norm_num
  rw [h, hc24, hc6]
  norm_num

/-- C8: `calculate_rsi` (for a genuine period ≥ 1) always returns a value in
[0, 100]; it returns exactly 100 whenever the window is long enough to
compute and all successive deltas are non-negative (so the sign-flipped
losses average to zero, triggering the `avg_loss == 0` guard), and exactly
50 whenever fewer than period+1 prices are supplied. -/
theorem c8_rsi_properties (prices : List ℚ) (period : ℕ) (_hp : 1 ≤ period) :
    (0 ≤ TechnicalIndicators.calculate_rsi prices period ∧
      TechnicalIndicators.calculate_rsi prices period ≤ 100)
    ∧ (period + 1 ≤ prices.length → (∀ d ∈ deltas prices, 0 ≤ d) →
        TechnicalIndicators.calculate_rsi prices period = 100)
    ∧ (prices.length < period + 1 →
        TechnicalIndicators.calculate_rsi prices period = 50) := by
  refine ⟨?_, ?_, ?_⟩
  · simp only [TechnicalIndicators.calculate_rsi]
    split_ifs with h1 h2
    · norm_num
    · norm_num
    · have hG : 0 ≤ mean (lastN period
          ((deltas prices).map fun d => if 0 < d then d else 0)) := by
        apply mean_nonneg
        intro x hx
        obtain ⟨d, -, rfl⟩ := List.mem_map.1 (List.drop_subset _ _ hx)
        split
        · linarith
        · exact le_refl 0
      have hL0 : 0 ≤ mean (lastN period
          ((deltas prices).map fun d => if d < 0 then -d else 0)) := by
        apply mean_nonneg
        intro x hx
        obtain ⟨d, -, rfl⟩ := List.mem_map.1 (List.drop_subset _ _ hx)
        split
        · linarith
        · exact le_refl 0
      have hrs : 0 ≤ mean (lastN period ((deltas prices).map fun d => if 0 < d then d else 0)) /
          mean (lastN period ((deltas prices).map fun d => if d < 0 then -d else 0)) :=
        div_nonneg hG hL0
      have h1p : (0 : ℚ) < 1 +
          mean (lastN period ((deltas prices).map fun d => if 0 < d then d else 0)) /
            mean (lastN period ((deltas prices).map fun d => if d < 0 then -d else 0)) := by
        linarith
      have hub : 100 / (1 +
          mean (lastN period ((deltas prices).map fun d => if 0 < d then d else 0)) /
            mean (lastN period ((deltas prices).map fun d => if d < 0 then -d else 0))) ≤ 100 := by
        rw [div_le_iff₀ h1p]
        nlinarith
      have hlb : 0 < 100 / (1 +
          mean (lastN period ((deltas prices).map fun d => if 0 < d then d else 0)) /
            mean (lastN period ((deltas prices).map fun d => if d < 0 then -d else 0))) :=
        div_pos (by norm_num) h1p
      constructor
      · linarith
      · linarith
  · intro hlen hd
    simp only [TechnicalIndicators.calculate_rsi]
    rw [if_neg (not_lt.mpr hlen), if_pos ?_]
    apply mean_eq_zero
    intro x hx
    obtain ⟨d, hdm, rfl⟩ := List.mem_map.1 (List.drop_subset _ _ hx)
    rw [if_neg (not_lt.mpr (hd d hdm))]
  · intro h
    unfold TechnicalIndicators.calculate_rsi
    rw [if_pos h]

theorem c8_witness :
    (0 ≤ TechnicalIndicators.calculate_rsi [1, 2, 3] 2 ∧
      TechnicalIndicators.calculate_rsi [1, 2, 3] 2 ≤ 100) ∧
    TechnicalIndicators.calculate_rsi [1, 2, 3] 2 = 100 ∧
    TechnicalIndicators.calculate_rsi [1, 2] 2 = 50 :=
  ⟨(c8_rsi_properties [1, 2, 3] 2 (by norm_num)).1,
    (c8_rsi_properties [1, 2, 3] 2 (by norm_num)).2.1 (by decide)
      (by norm_num [deltas]),
    (c8_rsi_properties [1, 2] 2 (by norm_num)).2.2 (by decide)⟩

/-- C9: `calculate_ema` is a fixed point on constant input — for any period
between 1 and the series length, the EMA of a constant-price series equals
that constant (the seed is the mean of the first `period` values, and each
recurrence step `(price − ema)·multiplier + ema` preserves it). -/
theorem c9_ema_const (c : ℚ) (prices : List ℚ) (period : ℕ) (h1 : 1 ≤ period)
    (h2 : period ≤ prices.length) (hc : ∀ x ∈ prices, x = c) :
    TechnicalIndicators.calculate_ema prices period = c := by
  unfold TechnicalIndicators.calculate_ema
  rw [if_neg (not_lt.mpr h2)]
  have hseed : mean (prices.take period) = c := by
    apply mean_const
    · have hlt : (prices.take period).length = period := by
        rw [List.length_take]
        omega
      intro hnil
      rw [hnil] at hlt
      simp at hlt
      omega
    · intro x hx
      exact hc x (List.take_subset _ _ hx)
  rw [hseed]
  exact ema_foldl_const _ c _ fun x hx => hc x (List.drop_subset _ _ hx)

theorem c9_witness :
    TechnicalIndicators.calculate_ema (List.replicate 5 (3 : ℚ)) 3 = 3 :=
  c9_ema_const 3 (List.replicate 5 (3 : ℚ)) 3 (by norm_num) (by simp)
    fun x hx => List.eq_of_mem_replicate hx

/-- C10: every wait-gate fallback record of ScalpingEngine and
AdvancedTradingEngine (`_wait_signal`, the record each short-circuiting veto
gate of `analyze` returns) is the fixed placeholder: score 0, confidence 0,
entry price, stop loss and all take-profit levels 0, RSI reported as the
neutral 50, empty reasons, and exactly the one warning carrying the gate's
reason — none of its price levels derive from the input window. -/
theorem c10_wait_signal_fields (r : String) :
    (ScalpingEngine.waitSignal r).signal = SignalType.WAIT ∧
    (ScalpingEngine.waitSignal r).score = 0 ∧
    (ScalpingEngine.waitSignal r).confidence = 0 ∧
    (ScalpingEngine.waitSignal r).entry_price = 0 ∧
    (ScalpingEngine.waitSignal r).stop_loss = 0 ∧
    (ScalpingEngine.waitSignal r).take_profit_1 = 0 ∧
    (ScalpingEngine.waitSignal r).take_profit_2 = 0 ∧
    (ScalpingEngine.waitSignal r).rsi_value = 50 ∧
    (ScalpingEngine.waitSignal r).reasons = [] ∧
    (ScalpingEngine.waitSignal r).warnings = ["⚠️ " ++ r] ∧
    (AdvancedEngine.waitSignal r).signal = SignalType.WAIT ∧
    (AdvancedEngine.waitSignal r).score = 0 ∧
    (AdvancedEngine.waitSignal r).confidence = 0 ∧
    (AdvancedEngine.waitSignal r).entry_price = 0 ∧
    (AdvancedEngine.waitSignal r).stop_loss = 0 ∧
    (AdvancedEngine.waitSignal r).take_profit_1 = 0 ∧
    (AdvancedEngine.waitSignal r).take_profit_2 = 0 ∧
    (AdvancedEngine.waitSignal r).rsi = 50 ∧
    (AdvancedEngine.waitSignal r).reasons = [] ∧
    (AdvancedEngine.waitSignal r).warnings = ["⚠️ " ++ r] :=
  ⟨rfl, rfl, rfl, rfl, rfl, rfl, rfl, rfl, rfl, rfl, rfl, rfl, rfl, rfl, rfl, rfl, rfl,
    rfl, rfl, rfl⟩
